import Mathlib

/-!
Shallow embedding of the lark-awsbot repository (a Feishu chat bot that
manages AWS support tickets) and proofs about its claims.

The Python sources embedded here are src/utils.py, src/feishu_service.py,
src/aws_service.py, src/ticket_handler.py and src/lambda_function.py.

Modelling conventions:
* Python values are the inductive `PyVal` (None, bool, int, float, str,
  list, dict).  Python dicts are association lists in insertion order with
  unique keys, as Python guarantees.
* Python exceptions are `PyErr`; a fallible computation returns
  `Except PyErr _`.  The exception classes of utils.py (TicketError and its
  subclasses ValidationError, FeishuAPIError, AWSServiceError) are
  constructors, next to the library exceptions the code touches
  (AttributeError, TypeError, KeyError, botocore ClientError/BotoCoreError).
* The external collaborators (the lark SDK network calls, DynamoDB, AWS
  Support, the json library, datetime.strftime) are oracle functions in
  `Oracles`; side-effecting calls are also recorded in a trace `Tr` of
  `Effect`s so that theorems can state which gateway operations happened.
  Oracles take the retry-attempt number so that per-attempt outcomes are
  expressible.
* `Env` bundles the configuration, the oracles and the current unix time
  (`time.time()` truncated to seconds, one instant per invocation).
-/

/-- Python runtime values. -/
inductive PyVal where
  | none
  | bool (b : Bool)
  | int (n : Int)
  | float (q : Rat)
  | str (s : String)
  | list (xs : List PyVal)
  | dict (kvs : List (String × PyVal))

mutual
/-- Structural equality of Python values (used below to build `pyEq`,
the model of Python `==`). -/
def pyBeq : PyVal → PyVal → Bool
  | .none, .none => true
  | .bool a, .bool b => a == b
  | .int a, .int b => a == b
  | .float a, .float b => a == b
  | .str a, .str b => a == b
  | .list a, .list b => pyBeqList a b
  | .dict a, .dict b => pyBeqKvs a b
  | _, _ => false
/-- Structural equality on lists of Python values. -/
def pyBeqList : List PyVal → List PyVal → Bool
  | [], [] => true
  | x :: xs, y :: ys => pyBeq x y && pyBeqList xs ys
  | _, _ => false
/-- Structural equality on dict entries. -/
def pyBeqKvs : List (String × PyVal) → List (String × PyVal) → Bool
  | [], [] => true
  | (k1, v1) :: xs, (k2, v2) :: ys => k1 == k2 && pyBeq v1 v2 && pyBeqKvs xs ys
  | _, _ => false
end

/-- The numeric value of a Python number, with bool counted as an int
subtype (True == 1, False == 0), as Python's `==` does. -/
def pyNum : PyVal → Option Rat
  | .bool b => some (if b then 1 else 0)
  | .int n => some (n : Rat)
  | .float q => some q
  | _ => Option.none

/-- Model of Python `==`: numeric types compare by value (bool included),
everything else structurally.  Python dict equality is order-insensitive;
every `==` this development evaluates compares scalars (strings, numbers,
None), where the structural fallback coincides with Python. -/
def pyEq (a b : PyVal) : Bool :=
  match pyNum a, pyNum b with
  | some x, some y => x == y
  | _, _ => pyBeq a b

/-- Python truthiness: None, False, 0, empty string/list/dict are falsy. -/
def truthy : PyVal → Bool
  | .none => false
  | .bool b => b
  | .int n => n != 0
  | .float q => q != 0
  | .str s => !s.isEmpty
  | .list xs => !xs.isEmpty
  | .dict kvs => !kvs.isEmpty

/-- First binding of a key in a dict's entry list (Python dict keys are
unique, so first = only). -/
def lookupStr (kvs : List (String × PyVal)) (k : String) : Option PyVal :=
  match kvs with
  | [] => Option.none
  | (k2, v) :: rest => if k2 = k then some v else lookupStr rest k

/-- Name of a Python value's type, for exception messages. -/
def pyTypeName : PyVal → String
  | .none => "NoneType"
  | .bool _ => "bool"
  | .int _ => "int"
  | .float _ => "float"
  | .str _ => "str"
  | .list _ => "list"
  | .dict _ => "dict"

/-- Python exceptions the embedded code can raise.  The first four are
utils.py's TicketError and its subclasses; clientError/botoCoreError are
botocore's exceptions as raised by the AWS oracles. -/
inductive PyErr where
  | ticketError (msg : String)
  | validationError (msg : String)
  | feishuAPIError (msg : String)
  | awsServiceError (msg : String) (service : String)
  | clientError (code : String) (msg : String)
  | botoCoreError (msg : String)
  | attributeError (msg : String)
  | typeError (msg : String)
  | keyError (key : String)

/-- Whether the exception is utils.TicketError or one of its subclasses
(ValidationError, FeishuAPIError, AWSServiceError). -/
def isTicketError : PyErr → Bool
  | .ticketError _ => true
  | .validationError _ => true
  | .feishuAPIError _ => true
  | .awsServiceError _ _ => true
  | _ => false

/-- Whether the exception matches the retry tuple (ClientError,
BotoCoreError) used by the AWS service decorators. -/
def isAwsRetryable : PyErr → Bool
  | .clientError _ _ => true
  | .botoCoreError _ => true
  | _ => false

/-- Python str(e) of an exception: its message (for ClientError the
boto error message stands for the rendered text). -/
def errStr : PyErr → String
  | .ticketError m => m
  | .validationError m => m
  | .feishuAPIError m => m
  | .awsServiceError m _ => m
  | .clientError _ m => m
  | .botoCoreError m => m
  | .attributeError m => m
  | .typeError m => m
  | .keyError k => "\x27" ++ k ++ "\x27"

/-- Python `d.get(k, default)`: AttributeError on a non-dict receiver. -/
def pyGetD (v : PyVal) (k : String) (d : PyVal) : Except PyErr PyVal :=
  match v with
  | .dict kvs => .ok ((lookupStr kvs k).getD d)
  | other => .error (.attributeError
      ("\x27" ++ pyTypeName other ++ "\x27 object has no attribute \x27get\x27: " ++ k))

/-- Python `v[k]` with a string key: KeyError when absent, TypeError on a
non-dict receiver. -/
def pySub (v : PyVal) (k : String) : Except PyErr PyVal :=
  match v with
  | .dict kvs =>
    match lookupStr kvs k with
    | some x => .ok x
    | Option.none => .error (.keyError k)
  | other => .error (.typeError (pyTypeName other ++ " is not subscriptable by str"))

/-- Whitespace for Python str.strip (the ASCII whitespace characters;
str.strip also covers rarer unicode spaces, which no string in this
development contains). -/
def isSpaceChar (c : Char) : Bool :=
  c == ' ' || c == '\t' || c == '\n' || c == '\r' || c == '\x0b' || c == '\x0c'

/-- Python str.strip(): drop whitespace from both ends. -/
def pyStrip (s : String) : String :=
  String.mk (((s.toList.dropWhile isSpaceChar).reverse.dropWhile isSpaceChar).reverse)

/-- Prefix test on character lists. -/
def listIsPrefix : List Char → List Char → Bool
  | [], _ => true
  | _, [] => false
  | a :: as, b :: bs => a == b && listIsPrefix as bs

/-- Infix (contiguous substring) test on character lists. -/
def listHasInfix (needle : List Char) (hay : List Char) : Bool :=
  listIsPrefix needle hay ||
    match hay with
    | [] => false
    | _ :: rest => listHasInfix needle rest

/-- Python `needle in hay` on strings: substring containment. -/
def strHasSub (needle hay : String) : Bool := listHasInfix needle.toList hay.toList

/-- Python str.startswith. -/
def strStartsWith (s p : String) : Bool := listIsPrefix p.toList s.toList

/-- Python `s[n:]`: drop the first n characters. -/
def strDrop (s : String) (n : Nat) : String := String.mk (s.toList.drop n)

/-- Python `k in v`: key membership for dicts, element equality for lists,
substring for strings, TypeError otherwise. -/
def pyIn (k : String) (v : PyVal) : Except PyErr Bool :=
  match v with
  | .dict kvs => .ok (kvs.any (fun p => p.1 == k))
  | .list xs => .ok (xs.any (fun x => pyEq x (.str k)))
  | .str s => .ok (strHasSub k s)
  | other => .error (.typeError ("argument of type \x27" ++ pyTypeName other ++ "\x27 is not iterable"))

/-- Python `sep.join(parts)`. -/
def joinSep (sep : String) : List String → String
  | [] => ""
  | [x] => x
  | x :: xs => x ++ sep ++ joinSep sep xs

/-- Decimal digit character for d < 10. -/
def digitChar (d : Nat) : Char := Char.ofNat (48 + d)

/-- Little-endian decimal digits with explicit fuel (so that the
definition reduces definitionally on literals; proven below equal to
Nat.digits 10). -/
def natDigitsRevAux : Nat → Nat → List Nat
  | _, 0 => []
  | 0, _ => []
  | fuel + 1, n => (n % 10) :: natDigitsRevAux fuel (n / 10)

/-- Little-endian decimal digits of a natural number. -/
def natDigitsRev (n : Nat) : List Nat := natDigitsRevAux n n

/-- Decimal rendering of a natural number (Python str(n) for n >= 0). -/
def natToDecStr (n : Nat) : String :=
  if n = 0 then "0" else String.mk (((natDigitsRev n).map digitChar).reverse)

/-- Python str(n) for an int. -/
def intStr (n : Int) : String :=
  if n < 0 then "-" ++ natToDecStr n.natAbs else natToDecStr n.natAbs

/-- Numeric value of a decimal digit character. -/
def digitVal (c : Char) : Option Nat :=
  if 48 ≤ c.toNat && c.toNat ≤ 57 then some (c.toNat - 48) else Option.none

/-- Digit values of a character run, or None when a character is not a
decimal digit. -/
def digitsOf : List Char → Option (List Nat)
  | [] => some []
  | c :: rest =>
    match digitVal c, digitsOf rest with
    | some d, some ds => some (d :: ds)
    | _, _ => Option.none

/-- Value of a nonempty big-endian decimal digit string. -/
def decStrToNat (cs : List Char) : Option Nat :=
  match cs, digitsOf cs with
  | _ :: _, some ds => some (Nat.ofDigits 10 ds.reverse)
  | _, _ => Option.none

/-- Model of Python int(s) on a string: optional surrounding whitespace,
optional sign, a nonempty run of decimal digits.  (Python additionally
accepts underscore digit separators, which no value in this development
contains.) -/
def parseIntPy (s : String) : Option Int :=
  match (pyStrip s).toList with
  | [] => Option.none
  | c :: rest =>
    if c = '-' then
      match decStrToNat rest with
      | some m => some (-(m : Int))
      | Option.none => Option.none
    else if c = '+' then
      match decStrToNat rest with
      | some m => some ((m : Int))
      | Option.none => Option.none
    else
      match decStrToNat (c :: rest) with
      | some m => some ((m : Int))
      | Option.none => Option.none

/-- Model of Python float(s) on plain decimal literals: optional sign,
digits with an optional fractional part, as an exact rational.  Exponent
forms and inf/nan are not modelled; no value this development evaluates
reaches them, the function only has to accept digit strings and reject
non-numeric text such as True/False. -/
def parseFloatPy (s : String) : Option Rat :=
  let core := fun (cs : List Char) =>
    let intPart := cs.takeWhile (fun c => digitVal c != Option.none)
    let rest := cs.drop intPart.length
    match rest with
    | [] =>
      match decStrToNat intPart with
      | some n => some ((n : Rat))
      | Option.none => Option.none
    | '.' :: fracPart =>
      match digitsOf intPart, digitsOf fracPart with
      | some _, some _ =>
        if intPart.isEmpty && fracPart.isEmpty then Option.none
        else
          let ip : Rat := ((Nat.ofDigits 10 ((intPart.map (fun c => (digitVal c).getD 0)).reverse) : Nat) : Rat)
          let fp : Rat := ((Nat.ofDigits 10 ((fracPart.map (fun c => (digitVal c).getD 0)).reverse) : Nat) : Rat)
          some (ip + fp / ((10 : Rat) ^ fracPart.length))
      | _, _ => Option.none
    | _ => Option.none
  match (pyStrip s).toList with
  | '-' :: rest => (core rest).map (fun q => -q)
  | '+' :: rest => core rest
  | cs => core cs

mutual
/-- Python str(v).  Exact for None, bool, int and str; the renderings of
floats and of list/dict reprs are approximate (no claim depends on them:
they only appear inside chat-message text). -/
def pyStr : PyVal → String
  | .none => "None"
  | .bool b => if b then "True" else "False"
  | .int n => intStr n
  | .float q => toString q
  | .str s => s
  | .list xs => "[" ++ joinSep ", " (pyStrList xs) ++ "]"
  | .dict kvs => "\x7b" ++ joinSep ", " (pyStrKvs kvs) ++ "\x7d"
/-- Renderings of the values of a list. -/
def pyStrList : List PyVal → List String
  | [] => []
  | x :: xs => pyStr x :: pyStrList xs
/-- Renderings of the entries of a dict. -/
def pyStrKvs : List (String × PyVal) → List String
  | [] => []
  | (k, v) :: rest => ("\x27" ++ k ++ "\x27: " ++ pyStr v) :: pyStrKvs rest
end

/-- DynamoDB attribute values as produced and consumed by
aws_service.DynamoDBService (the typed tagged storage format). -/
inductive AttrVal where
  | S (s : String)
  | N (s : String)
  | BOOL (b : Bool)
  | NULL

/-- Gateway side effects recorded while the embedded code runs. -/
inductive Effect where
  | sleep (seconds : Rat)
  | msgCreate (attempt : Nat) (receive_id : PyVal) (msg_type : String) (content : PyVal)
  | chatCreate (attempt : Nat) (name : String) (description : String) (owner : PyVal) (members : PyVal)
  | putItem (attempt : Nat) (table : String) (item : List (String × AttrVal))
  | scanCall (attempt : Nat) (user : PyVal) (limit : Int)
  | caseCreate (attempt : Nat) (subject service severity body : PyVal)

/-- The effect trace. -/
abbrev Tr := List Effect

/-- Result of an embedded Python computation: its value or the exception
it raised, together with the effect trace so far. -/
abbrev PRes (α : Type) := Except PyErr α × Tr

/-- Response object of the lark SDK message-create call (response.success(),
response.msg, response.code, response.data.message_id). -/
structure LarkMsgResp where
  ok : Bool
  msg : String
  code : Int
  message_id : String

/-- Response object of the lark SDK chat-create call (response.data.chat_id
may be empty/None, hence a PyVal). -/
structure LarkChatResp where
  ok : Bool
  msg : String
  code : Int
  chat_id : PyVal

/-- The external collaborators: lark SDK calls, DynamoDB, AWS Support, the
json library (loads/dumps) and datetime.strftime (whose output depends on
the process's local timezone).  Each gateway call takes the retry-attempt
number first, so a theorem can describe an oracle that fails on one attempt
and succeeds on another. -/
structure Oracles where
  msgCreate : Nat → PyVal → String → PyVal → Except PyErr LarkMsgResp
  chatCreate : Nat → String → String → PyVal → PyVal → Except PyErr LarkChatResp
  putItem : Nat → String → List (String × AttrVal) → Except PyErr Unit
  scan : Nat → PyVal → Int → Except PyErr (List (List (String × AttrVal)))
  caseCreate : Nat → PyVal → PyVal → PyVal → PyVal → Except PyErr String
  loads : String → Option PyVal
  dumps : PyVal → String
  strftime : String → PyVal → String

/-- utils.Config as loaded from the environment.  Note: the Config class
defines get_feishu_config and get_aws_config but NO get_chat_config method
(its chat attributes are CHAT_NAME_PREFIX and CHAT_DESCRIPTION_TEMPLATE),
so ticket_handler's call self.config.get_chat_config() raises
AttributeError; see Config.get_chat_config below. -/
structure Config where
  feishu_app_id : PyVal
  feishu_app_secret : PyVal
  aws_region : String
  dynamodb_table : String
  max_history_records : Int
  default_ticket_status : String

/-- Config.get_feishu_config. -/
def Config.get_feishu_config (c : Config) : List (String × PyVal) :=
  [("app_id", c.feishu_app_id), ("app_secret", c.feishu_app_secret),
   ("api_base_url", .str "https://open.feishu.cn/open-apis")]

/-- Config.get_aws_config. -/
def Config.get_aws_config (c : Config) : List (String × PyVal) :=
  [("region", .str c.aws_region), ("dynamodb_table", .str c.dynamodb_table)]

/-- The call self.config.get_chat_config() in ticket_handler.py line 407:
utils.Config defines no such method, so Python raises AttributeError at the
call site. -/
def Config.get_chat_config : Except PyErr (List (String × PyVal)) :=
  .error (.attributeError "\x27Config\x27 object has no attribute \x27get_chat_config\x27")

/-- Environment of one invocation: configuration, oracles, and the unix
time in seconds (int(time.time()), one instant per invocation). -/
structure Env where
  cfg : Config
  o : Oracles
  now : Int

/-- utils.retry's loop, from the decorator in utils.py lines 192-235: run
f; on an exception of the retried classes, sleep the current delay
(recorded in the trace), multiply it by backoff and try again, up to
maxAttempts attempts in total; the last attempt's exception is re-raised.
An exception outside the retried classes propagates immediately.  The
first argument of f is the attempt index. -/
def retryGo {α : Type} (retryable : PyErr → Bool) (f : Nat → Tr → PRes α)
    (curDelay backoff : Rat) : Nat → Nat → Tr → PRes α
  | _, 0, tr => (.error (.ticketError "retry: no attempts"), tr)
  | attempt, r + 1, tr =>
    match f attempt tr with
    | (.ok a, tr1) => (.ok a, tr1)
    | (.error e, tr1) =>
      if retryable e then
        if r = 0 then (.error e, tr1)
        else retryGo retryable f (curDelay * backoff) backoff (attempt + 1) r
            (tr1 ++ [Effect.sleep curDelay])
      else (.error e, tr1)

/-- utils.retry with its budget and delays (backoff defaults to 2.0). -/
def retryCall {α : Type} (maxAttempts : Nat) (delay backoff : Rat)
    (retryable : PyErr → Bool) (f : Nat → Tr → PRes α) (tr : Tr) : PRes α :=
  retryGo retryable f delay backoff 0 maxAttempts tr

/-- utils.handle_exception: a TicketError is logged and re-raised as is;
any other exception is wrapped into TicketError("函数 name 执行失败: ...").
A normal result passes through. -/
def handle_exception {α : Type} (fname : String) (r : PRes α) : PRes α :=
  match r with
  | (.error e, tr) =>
    if isTicketError e then (.error e, tr)
    else (.error (.ticketError ("函数 " ++ fname ++ " 执行失败: " ++ errStr e)), tr)
  | ok => ok

/-- utils.validate_required_fields's missing-field scan: a field is missing
when absent, None, or equal to the empty string. -/
def missing_required (data : List (String × PyVal)) (required : List String) : List String :=
  required.filter (fun f =>
    match lookupStr data f with
    | Option.none => true
    | some v => pyBeq v PyVal.none || pyEq v (.str ""))

/-- utils.validate_required_fields: raises ValidationError naming the
missing fields, comma-joined, after the given message. -/
def validate_required_fields (data : List (String × PyVal)) (required : List String)
    (error_message : String) : Except PyErr Unit :=
  let m := missing_required data required
  if m.isEmpty then .ok ()
  else .error (.validationError (error_message ++ ": " ++ joinSep ", " m))

/-- utils.safe_json_loads: json.loads on a string (parse failure gives the
default), TypeError on a non-string input is caught and gives the default. -/
def safe_json_loads (loads : String → Option PyVal) (v : PyVal) (default : PyVal) : PyVal :=
  match v with
  | .str s => (loads s).getD default
  | _ => default

/-- utils.format_timestamp: converts a unix timestamp to local calendar
text via datetime.fromtimestamp + strftime.  The conversion (and its
fallback to 未知时间 on unconvertible input) depends on the process's local
timezone, so it is supplied whole as the strftime oracle. -/
def format_timestamp (strftime : String → PyVal → String) (timestamp : PyVal)
    (format_str : String) : String :=
  strftime format_str timestamp

/-- utils.create_response: the uniform response envelope.  success and
message are stored as passed (several call sites pass an HTTP status int
and a dict); data is added when not None, error_code when truthy;
timestamp is int(time.time()). -/
def create_response (success message data error_code : PyVal) (now : Int) : PyVal :=
  .dict ([("success", success), ("message", message), ("timestamp", .int now)]
    ++ (if pyBeq data PyVal.none then [] else [("data", data)])
    ++ (if truthy error_code then [("error_code", error_code)] else []))

/-- FeishuService.__init__'s configuration validation (app_id and
app_secret must be present). -/
def feishu_service_init (env : Env) : Except PyErr Unit :=
  validate_required_fields env.cfg.get_feishu_config ["app_id", "app_secret"] "飞书配置不完整"

/-- AWSService.__init__'s configuration validation (region and
dynamodb_table must be present). -/
def aws_service_init (env : Env) : Except PyErr Unit :=
  validate_required_fields env.cfg.get_aws_config ["region", "dynamodb_table"] "AWS配置不完整"

/-- One attempt of FeishuService.send_message: validate the arguments,
call the lark SDK (recorded in the trace).  The function's except-clause
re-wraps every exception of the try block -- the SDK call's failure and
the FeishuAPIError the body itself raises on an unsuccessful response --
into FeishuAPIError("发送飞书消息请求失败: ...") (the hasattr(e, 'code')
branch applies to SDK exception objects carrying code/msg attributes,
which the oracles do not model). -/
def send_message_inner (env : Env) (chat_id : PyVal) (msg_type : String) (content : PyVal)
    (attempt : Nat) (tr : Tr) : PRes PyVal :=
  match validate_required_fields
      [("chat_id", chat_id), ("msg_type", .str msg_type), ("content", content)]
      ["chat_id", "msg_type", "content"] "发送消息参数不完整" with
  | .error e => (.error e, tr)
  | .ok _ =>
    let tr1 := tr ++ [Effect.msgCreate attempt chat_id msg_type content]
    match env.o.msgCreate attempt chat_id msg_type content with
    | .error e => (.error (.feishuAPIError ("发送飞书消息请求失败: " ++ errStr e)), tr1)
    | .ok resp =>
      if resp.ok then
        (.ok (.dict [("code", .int 0), ("msg", .str "success"),
          ("data", .dict [("message_id", .str resp.message_id)])]), tr1)
      else
        (.error (.feishuAPIError ("发送飞书消息请求失败: 发送消息失败: " ++ resp.msg)), tr1)

/-- FeishuService.send_message with its decorators: handle_exception over
retry(max_attempts=2, delay=1.0, exceptions=(Exception,)). -/
def send_message (env : Env) (chat_id : PyVal) (msg_type : String) (content : PyVal)
    (tr : Tr) : PRes PyVal :=
  handle_exception "send_message"
    (retryCall 2 1 2 (fun _ => true) (send_message_inner env chat_id msg_type content) tr)

/-- One attempt of FeishuService.create_chat: validate chat_name, call the
lark SDK.  As in send_message, the except-clause re-wraps every exception
of the try block into FeishuAPIError("创建群聊请求失败: ..."), including
the body's own raises for an unsuccessful response and for a response
without a chat id.  Note the function either returns a truthy chat id or
raises -- no code path returns None. -/
def create_chat_inner (env : Env) (chat_name description : String) (owner_id user_list : PyVal)
    (attempt : Nat) (tr : Tr) : PRes PyVal :=
  match validate_required_fields [("chat_name", .str chat_name)] ["chat_name"] "创建群聊参数不完整" with
  | .error e => (.error e, tr)
  | .ok _ =>
    let tr1 := tr ++ [Effect.chatCreate attempt chat_name description owner_id user_list]
    match env.o.chatCreate attempt chat_name description owner_id user_list with
    | .error e => (.error (.feishuAPIError ("创建群聊请求失败: " ++ errStr e)), tr1)
    | .ok resp =>
      if resp.ok then
        if truthy resp.chat_id then (.ok resp.chat_id, tr1)
        else (.error (.feishuAPIError "创建群聊请求失败: 创建群聊成功但未返回群聊ID"), tr1)
      else (.error (.feishuAPIError ("创建群聊请求失败: 创建群聊失败: " ++ resp.msg)), tr1)

/-- FeishuService.create_chat with its decorators: handle_exception over
retry(max_attempts=2, delay=1.0, exceptions=(Exception,)). -/
def create_chat (env : Env) (chat_name description : String) (owner_id user_list : PyVal)
    (tr : Tr) : PRes PyVal :=
  handle_exception "create_chat"
    (retryCall 2 1 2 (fun _ => true) (create_chat_inner env chat_name description owner_id user_list) tr)

/-- FeishuService._get_service_options: the five AWS service choices. -/
def get_service_options : PyVal := .list [
  .dict [("text", .dict [("content", .str "Amazon EC2"), ("tag", .str "plain_text")]),
         ("value", .str "amazon-elastic-compute-cloud-linux")],
  .dict [("text", .dict [("content", .str "Amazon S3"), ("tag", .str "plain_text")]),
         ("value", .str "amazon-simple-storage-service")],
  .dict [("text", .dict [("content", .str "Amazon RDS"), ("tag", .str "plain_text")]),
         ("value", .str "amazon-relational-database-service")],
  .dict [("text", .dict [("content", .str "AWS Lambda"), ("tag", .str "plain_text")]),
         ("value", .str "aws-lambda")],
  .dict [("text", .dict [("content", .str "Amazon VPC"), ("tag", .str "plain_text")]),
         ("value", .str "amazon-virtual-private-cloud")]]

/-- FeishuService._get_severity_options: the four severity choices. -/
def get_severity_options : PyVal := .list [
  .dict [("text", .dict [("content", .str "🔴 紧急 (Critical)"), ("tag", .str "plain_text")]),
         ("value", .str "critical")],
  .dict [("text", .dict [("content", .str "🟠 高 (High)"), ("tag", .str "plain_text")]),
         ("value", .str "high")],
  .dict [("text", .dict [("content", .str "🟡 中 (Normal)"), ("tag", .str "plain_text")]),
         ("value", .str "normal")],
  .dict [("text", .dict [("content", .str "🟢 低 (Low)"), ("tag", .str "plain_text")]),
         ("value", .str "low")]]

/-- FeishuService.create_ticket_card: validates the title and builds the
interactive card; the submit button's value is the json.dumps of
the action/title pair. -/
def create_ticket_card (env : Env) (title : String) : Except PyErr PyVal :=
  match validate_required_fields [("title", .str title)] ["title"] "创建工单卡片参数不完整" with
  | .error e => .error e
  | .ok _ => .ok (.dict [
      ("config", .dict [("wide_screen_mode", .bool true)]),
      ("elements", .list [
        .dict [("tag", .str "div"),
               ("text", .dict [("content", .str ("**🎫 创建AWS工单**\n\n📝 标题: " ++ title)),
                               ("tag", .str "lark_md")])],
        .dict [("tag", .str "hr")],
        .dict [("tag", .str "div"),
               ("text", .dict [("content", .str "**请选择服务类型:**"), ("tag", .str "lark_md")])],
        .dict [("tag", .str "select_static"),
               ("placeholder", .dict [("content", .str "选择AWS服务"), ("tag", .str "plain_text")]),
               ("options", get_service_options),
               ("value", .dict [("service", .str "")])],
        .dict [("tag", .str "div"),
               ("text", .dict [("content", .str "**请选择严重性级别:**"), ("tag", .str "lark_md")])],
        .dict [("tag", .str "select_static"),
               ("placeholder", .dict [("content", .str "选择严重性级别"), ("tag", .str "plain_text")]),
               ("options", get_severity_options),
               ("value", .dict [("severity", .str "")])],
        .dict [("tag", .str "hr")],
        .dict [("tag", .str "action"),
               ("actions", .list [
                 .dict [("tag", .str "button"),
                        ("text", .dict [("content", .str "提交工单"), ("tag", .str "plain_text")]),
                        ("type", .str "primary"),
                        ("value", .str (env.o.dumps (.dict [("action", .str "submit_ticket"),
                                                            ("title", .str title)])))]])]]),
      ("header", .dict [("template", .str "blue"),
                        ("title", .dict [("content", .str "AWS工单系统"), ("tag", .str "plain_text")])])])

/-- DynamoDBService._convert_to_dynamodb_item's per-value conversion, with
Python's isinstance chain: str first, then (int, float) -- which also
captures bool, an int subtype, so True/False are stored as N-tagged
str(True)/str(False) and the dedicated BOOL branch is dead code -- then
None; every other type is stored as its str(). -/
def convert_to_dynamodb_value : PyVal → AttrVal
  | .str s => .S s
  | .int n => .N (intStr n)
  | .float q => .N (pyStr (.float q))
  | .bool b => .N (if b then "True" else "False")
  | .none => .NULL
  | v => .S (pyStr v)

/-- DynamoDBService._convert_to_dynamodb_item. -/
def convert_to_dynamodb_item (data : List (String × PyVal)) : List (String × AttrVal) :=
  data.map (fun kv => (kv.1, convert_to_dynamodb_value kv.2))

/-- DynamoDBService._convert_from_dynamodb_item's per-value conversion:
an N-tagged value is tried as int, then float, else kept as the raw
string. -/
def convert_from_dynamodb_value : AttrVal → PyVal
  | .S s => .str s
  | .N s =>
    match parseIntPy s with
    | some n => .int n
    | Option.none =>
      match parseFloatPy s with
      | some q => .float q
      | Option.none => .str s
  | .BOOL b => .bool b
  | .NULL => PyVal.none

/-- DynamoDBService._convert_from_dynamodb_item. -/
def convert_from_dynamodb_item (item : List (String × AttrVal)) : List (String × PyVal) :=
  item.map (fun kv => (kv.1, convert_from_dynamodb_value kv.2))

/-- Sort key of get_user_tickets: x.get('created_at', 0).  The tickets the
claims range over carry integer timestamps (as save_ticket writes and the
N-tag conversion reads back); a non-int value stands as key 0 here, where
Python would raise on a mixed-type comparison -- the ordering theorems
assume integer timestamps. -/
def createdAtKey (t : List (String × PyVal)) : Int :=
  match lookupStr t "created_at" with
  | some (.int n) => n
  | _ => 0

/-- Model of Python list.sort(key=..., reverse=True): a sort into weakly
descending key order.  Python's sort is a stable mergesort; under the
distinct-key hypotheses of the ordering theorems every sort produces the
same, unique, strictly descending arrangement. -/
def sortDescBy {α : Type} (key : α → Int) (l : List α) : List α :=
  List.insertionSort (fun a b => key b ≤ key a) l

/-- One attempt of DynamoDBService.save_ticket: validate the five
required fields, build the ticket record (status defaults to the
configured pending status; created_at/updated_at are int(time.time());
chat_id is added only when truthy), convert it to the DynamoDB item format
and put it.  The except-clauses convert ClientError and every other
exception into AWSServiceError -- so the retry decorator, which only
retries (ClientError, BotoCoreError), never sees a retryable exception
from this body. -/
def save_ticket_inner (env : Env) (ticket_id user_id title service severity chat_id status : PyVal)
    (attempt : Nat) (tr : Tr) : PRes PyVal :=
  match validate_required_fields
      [("ticket_id", ticket_id), ("user_id", user_id), ("title", title),
       ("service", service), ("severity", severity)]
      ["ticket_id", "user_id", "title", "service", "severity"] "保存工单参数不完整" with
  | .error e => (.error e, tr)
  | .ok _ =>
    let table := env.cfg.dynamodb_table
    let base : List (String × PyVal) :=
      [("ticket_id", ticket_id), ("user_id", user_id), ("title", title),
       ("service", service), ("severity", severity),
       ("status", if truthy status then status else .str env.cfg.default_ticket_status),
       ("created_at", .int env.now), ("updated_at", .int env.now)]
    let ticket_data := base ++ (if truthy chat_id then [("chat_id", chat_id)] else [])
    let item := convert_to_dynamodb_item ticket_data
    let tr1 := tr ++ [Effect.putItem attempt table item]
    match env.o.putItem attempt table item with
    | .ok _ => (.ok (.dict ticket_data), tr1)
    | .error (.clientError _ m) =>
      (.error (.awsServiceError ("保存工单到DynamoDB失败: " ++ m) "dynamodb"), tr1)
    | .error e => (.error (.awsServiceError ("保存工单失败: " ++ errStr e) "dynamodb"), tr1)

/-- DynamoDBService.save_ticket with its decorators: handle_exception over
retry(max_attempts=3, delay=1.0, exceptions=(ClientError, BotoCoreError)). -/
def save_ticket (env : Env) (ticket_id user_id title service severity chat_id status : PyVal)
    (tr : Tr) : PRes PyVal :=
  handle_exception "save_ticket"
    (retryCall 3 1 2 isAwsRetryable
      (save_ticket_inner env ticket_id user_id title service severity chat_id status) tr)

/-- Python int(v) used for the limit: the or-expression
`limit or MAX_HISTORY_RECORDS` takes the configured maximum when limit is
falsy (None or 0). -/
def pyToInt : PyVal → Int
  | .int n => n
  | _ => 0

/-- One attempt of DynamoDBService.get_user_tickets: validate user_id, scan
the table filtered by user (recorded in the trace), convert each item from
the DynamoDB format, and sort by created_at descending.  As in save_ticket,
the except-clauses convert ClientError and every other exception into
AWSServiceError, which the retry decorator does not retry. -/
def get_user_tickets_inner (env : Env) (user_id limit : PyVal) (attempt : Nat) (tr : Tr) :
    PRes (List (List (String × PyVal))) :=
  match validate_required_fields [("user_id", user_id)] ["user_id"] "查询用户工单参数不完整" with
  | .error e => (.error e, tr)
  | .ok _ =>
    let query_limit : Int := if truthy limit then pyToInt limit else env.cfg.max_history_records
    let tr1 := tr ++ [Effect.scanCall attempt user_id query_limit]
    match env.o.scan attempt user_id query_limit with
    | .ok items =>
      let tickets := items.map convert_from_dynamodb_item
      (.ok (sortDescBy createdAtKey tickets), tr1)
    | .error (.clientError _ m) =>
      (.error (.awsServiceError ("查询用户工单失败: " ++ m) "dynamodb"), tr1)
    | .error e => (.error (.awsServiceError ("查询用户工单失败: " ++ errStr e) "dynamodb"), tr1)

/-- DynamoDBService.get_user_tickets with its decorators: handle_exception
over retry(max_attempts=3, delay=1.0, exceptions=(ClientError,
BotoCoreError)). -/
def get_user_tickets (env : Env) (user_id limit : PyVal) (tr : Tr) :
    PRes (List (List (String × PyVal))) :=
  handle_exception "get_user_tickets"
    (retryCall 3 1 2 isAwsRetryable (get_user_tickets_inner env user_id limit) tr)

/-- One attempt of SupportService.create_support_case: validate the four
required fields, create the case (recorded in the trace).  As in the
DynamoDB operations, the except-clauses convert ClientError and every
other exception into AWSServiceError, which the retry decorator does not
retry. -/
def create_support_case_inner (env : Env) (title service severity content : PyVal)
    (attempt : Nat) (tr : Tr) : PRes PyVal :=
  match validate_required_fields
      [("title", title), ("service", service), ("severity", severity), ("content", content)]
      ["title", "service", "severity", "content"] "创建AWS工单参数不完整" with
  | .error e => (.error e, tr)
  | .ok _ =>
    let tr1 := tr ++ [Effect.caseCreate attempt title service severity content]
    match env.o.caseCreate attempt title service severity content with
    | .ok case_id => (.ok (.str case_id), tr1)
    | .error (.clientError _ m) =>
      (.error (.awsServiceError ("创建AWS Support工单失败: " ++ m) "support"), tr1)
    | .error e => (.error (.awsServiceError ("创建AWS Support工单失败: " ++ errStr e) "support"), tr1)

/-- SupportService.create_support_case with its decorators:
handle_exception over retry(max_attempts=2, delay=2.0,
exceptions=(ClientError, BotoCoreError)). -/
def create_support_case (env : Env) (title service severity content : PyVal) (tr : Tr) :
    PRes PyVal :=
  handle_exception "create_support_case"
    (retryCall 2 2 2 isAwsRetryable (create_support_case_inner env title service severity content) tr)

/-- TicketHandler.__init__ via get_ticket_handler: constructing the
ticket handler builds the Feishu service (validating the Feishu app
configuration) and the AWS services (validating the AWS configuration);
either validation failure propagates as ValidationError. -/
def get_ticket_handler_init (env : Env) : Except PyErr Unit :=
  match feishu_service_init env with
  | .error e => .error e
  | .ok _ => aws_service_init env

/-- TicketHandler._parse_action_value: a str value is JSON-parsed with
default empty-dict, a dict passes through, anything else gives the empty
dict.  Total: it never raises. -/
def parse_action_value (loads : String → Option PyVal) (value : PyVal) : PyVal :=
  match value with
  | .str s => safe_json_loads loads (.str s) (.dict [])
  | .dict kvs => .dict kvs
  | _ => .dict []

/-- One iteration of TicketHandler._parse_form_options's list loop:
`if 'service' in option: service = option.get('value', '')
elif 'severity' in option: severity = option.get('value', '')`.
On a dict entry `in` is exact key membership; on a str entry it is
substring containment but the subsequent .get raises AttributeError;
on an int/None entry `in` itself raises TypeError. -/
def parse_form_option_step (acc : PyVal × PyVal) (option : PyVal) :
    Except PyErr (PyVal × PyVal) :=
  match pyIn "service" option with
  | .error e => .error e
  | .ok true =>
    match pyGetD option "value" (.str "") with
    | .error e => .error e
    | .ok v => .ok (v, acc.2)
  | .ok false =>
    match pyIn "severity" option with
    | .error e => .error e
    | .ok true =>
      match pyGetD option "value" (.str "") with
      | .error e => .error e
      | .ok v => .ok (acc.1, v)
    | .ok false => .ok acc

/-- TicketHandler._parse_form_options's loop over a list-shaped options
value: later matches overwrite earlier ones. -/
def parse_form_options_list (acc : PyVal × PyVal) : List PyVal → Except PyErr (PyVal × PyVal)
  | [] => .ok acc
  | o :: rest =>
    match parse_form_option_step acc o with
    | .error e => .error e
    | .ok acc2 => parse_form_options_list acc2 rest

/-- TicketHandler._parse_form_options's loop over a dict-shaped options
value: `'service' in key` is substring containment on the key string;
later matches overwrite earlier ones. -/
def parse_form_options_dict (acc : PyVal × PyVal) : List (String × PyVal) → PyVal × PyVal
  | [] => acc
  | (k, v) :: rest =>
    let acc2 :=
      if strHasSub "service" k then (v, acc.2)
      else if strHasSub "severity" k then (acc.1, v)
      else acc
    parse_form_options_dict acc2 rest

/-- TicketHandler._parse_form_options: service and severity start as '',
options = action_data.get('action', {}).get('option', {}); a list is
scanned entry by entry, a dict key by key, anything else leaves both
empty. -/
def parse_form_options (action_data : PyVal) : Except PyErr (PyVal × PyVal) :=
  match pyGetD action_data "action" (.dict []) with
  | .error e => .error e
  | .ok action =>
    match pyGetD action "option" (.dict []) with
    | .error e => .error e
    | .ok options =>
      match options with
      | .list xs => parse_form_options_list (.str "", .str "") xs
      | .dict kvs => .ok (parse_form_options_dict (.str "", .str "") kvs)
      | _ => .ok (.str "", .str "")

/-- The missing-field list of TicketHandler._handle_submit_ticket, in the
source's fixed order: 标题 (title), 服务类型 (service type), 严重性
(severity), 用户ID (user id). -/
def submit_missing_fields (title service severity user_id : PyVal) : List String :=
  (if truthy title then [] else ["标题"]) ++
  (if truthy service then [] else ["服务类型"]) ++
  (if truthy severity then [] else ["严重性"]) ++
  (if truthy user_id then [] else ["用户ID"])

/-- Model of str.format on the chat description template (unreachable in
execution: get_chat_config raises before the template is read). -/
def formatDescTemplate (template : String) (title service severity : PyVal) : String :=
  ((template.replace "\x7btitle\x7d" (pyStr title)).replace
      "\x7bservice\x7d" (pyStr service)).replace
    "\x7bseverity\x7d" (pyStr severity)

/-- Body of the try-block of TicketHandler._handle_submit_ticket: extract
title/user_id/service/severity, reject with the missing-field response if
any is falsy, else generate the ticket id and continue with
self.config.get_chat_config() -- which raises AttributeError, because
utils.Config has no such method, so the remainder (group creation, ticket
persistence, group notification, success responses) is unreachable; it is
nevertheless embedded in full below, as the source writes it. -/
def handle_submit_ticket_body (env : Env) (action_data action_value : PyVal) (tr : Tr) :
    PRes PyVal :=
  match pyGetD action_value "title" (.str "") with
  | .error e => (.error e, tr)
  | .ok title =>
  match pyGetD action_data "user_id" (.str "") with
  | .error e => (.error e, tr)
  | .ok user_id =>
  match parse_form_options action_data with
  | .error e => (.error e, tr)
  | .ok (service, severity) =>
  if !(truthy title && truthy service && truthy severity && truthy user_id) then
    (.ok (create_response (.bool false)
      (.str ("请完善以下信息: " ++ joinSep ", " (submit_missing_fields title service severity user_id)))
      PyVal.none PyVal.none env.now), tr)
  else
    let ticket_id := "TICKET-" ++ intStr env.now
    match Config.get_chat_config with
    | .error e => (.error e, tr)
    | .ok chat_config =>
    match pySub (.dict chat_config) "name_prefix" with
    | .error e => (.error e, tr)
    | .ok name_pre =>
    match pySub (.dict chat_config) "description_template" with
    | .error e => (.error e, tr)
    | .ok desc_template =>
    let chat_name := pyStr name_pre ++ ticket_id
    let chat_description := formatDescTemplate (pyStr desc_template) title service severity
    match create_chat env chat_name chat_description user_id (.list [user_id]) tr with
    | (.error e, tr1) => (.error e, tr1)
    | (.ok chat_id, tr1) =>
    match save_ticket env (.str ticket_id) user_id title service severity chat_id PyVal.none tr1 with
    | (.error e, tr2) => (.error e, tr2)
    | (.ok _ticket_data, tr2) =>
    if truthy chat_id then
      let chat_msg :=
        "🎫 **AWS工单已创建**\n\n📋 **工单ID:** " ++ ticket_id ++
        "\n📝 **标题:** " ++ pyStr title ++ "\n🔧 **服务:** " ++ pyStr service ++
        "\n⚠️ **严重性:** " ++ pyStr severity ++ "\n\n请在此群中讨论工单相关问题。"
      match send_message env chat_id "text" (.dict [("text", .str chat_msg)]) tr2 with
      | (.error e, tr3) => (.error e, tr3)
      | (.ok _, tr3) =>
        let success_msg :=
          "✅ **工单创建成功**\n\n📋 工单ID: " ++ ticket_id ++
          "\n📝 标题: " ++ pyStr title ++ "\n🔧 服务: " ++ pyStr service ++
          "\n⚠️ 严重性: " ++ pyStr severity ++ "\n💬 讨论群聊: " ++ chat_name ++
          "\n\n请使用 `内容 [详细描述]` 命令添加工单详细信息。"
        (.ok (create_response (.bool true) (.str success_msg)
          (.dict [("ticket_id", .str ticket_id), ("chat_id", chat_id)]) PyVal.none env.now), tr3)
    else
      let success_msg :=
        "✅ **工单创建成功**\n\n📋 工单ID: " ++ ticket_id ++
        "\n📝 标题: " ++ pyStr title ++ "\n🔧 服务: " ++ pyStr service ++
        "\n⚠️ 严重性: " ++ pyStr severity ++
        "\n⚠️ 创建群聊失败，请联系管理员\n\n请使用 `内容 [详细描述]` 命令添加工单详细信息。"
      (.ok (create_response (.bool true) (.str success_msg)
        (.dict [("ticket_id", .str ticket_id), ("chat_id", chat_id)]) PyVal.none env.now), tr2)

/-- TicketHandler._handle_submit_ticket: its try/except turns every
exception of the body into the response
create_response(False, "创建工单失败: ..."). -/
def handle_submit_ticket (env : Env) (action_data action_value : PyVal) (tr : Tr) : PRes PyVal :=
  match handle_submit_ticket_body env action_data action_value tr with
  | (.error e, tr1) =>
    (.ok (create_response (.bool false) (.str ("创建工单失败: " ++ errStr e))
      PyVal.none PyVal.none env.now), tr1)
  | ok => ok

/-- The try-block of TicketHandler.handle_card_action: parse the action
value (a str is JSON-decoded, failure giving an empty action), dispatch
submit_ticket, reject unknown action types. -/
def handle_card_action_try (env : Env) (action_data : PyVal) (tr : Tr) : PRes PyVal :=
  match pyGetD action_data "action" (.dict []) with
  | .error e => (.error e, tr)
  | .ok action =>
    match pyGetD action "value" (.dict []) with
    | .error e => (.error e, tr)
    | .ok value =>
      match pyGetD (parse_action_value env.o.loads value) "action" PyVal.none with
      | .error e => (.error e, tr)
      | .ok action_type =>
        if pyEq action_type (.str "submit_ticket") then
          handle_submit_ticket env action_data (parse_action_value env.o.loads value) tr
        else
          (.ok (create_response (.bool false) (.str ("未知的操作类型: " ++ pyStr action_type))
            PyVal.none PyVal.none env.now), tr)

/-- TicketHandler.handle_card_action: the try-block above, whose
except-clause converts every exception into
create_response(False, "处理卡片交互失败: ..."); the handle_exception
decorator wraps the whole. -/
def handle_card_action (env : Env) (action_data : PyVal) (tr : Tr) : PRes PyVal :=
  handle_exception "handle_card_action"
    (match handle_card_action_try env action_data tr with
     | (.error e, tr1) =>
       (.ok (create_response (.bool false) (.str ("处理卡片交互失败: " ++ errStr e))
         PyVal.none PyVal.none env.now), tr1)
     | ok => ok)

/-- TicketHandler.handle_create_ticket_command: validate chat_id/title
(a ValidationError here propagates, re-raised by handle_exception), then
build and send the ticket card; the try/except converts exceptions into
create_response(False, "处理创建工单命令失败: ..."). -/
def handle_create_ticket_command (env : Env) (chat_id : PyVal) (title : String) (tr : Tr) :
    PRes PyVal :=
  handle_exception "handle_create_ticket_command"
    (match validate_required_fields [("chat_id", chat_id), ("title", .str title)]
        ["chat_id", "title"] "创建工单参数不完整" with
     | .error e => (.error e, tr)
     | .ok _ =>
       match
         (match create_ticket_card env title with
          | .error e => (.error e, tr)
          | .ok card =>
            match send_message env chat_id "interactive" (.dict [("card", card)]) tr with
            | (.error e, tr1) => (.error e, tr1)
            | (.ok result, tr1) =>
              match pyGetD result "code" PyVal.none with
              | .error e => (.error e, tr1)
              | .ok code =>
                if pyEq code (.int 0) then
                  (.ok (create_response (.bool true) (.str "工单创建卡片已发送")
                    PyVal.none PyVal.none env.now), tr1)
                else
                  match pyGetD result "msg" (.str "未知错误") with
                  | .error e => (.error e, tr1)
                  | .ok m =>
                    (.ok (create_response (.bool false) (.str ("发送工单卡片失败: " ++ pyStr m))
                      PyVal.none PyVal.none env.now), tr1) : PRes PyVal) with
       | (.error e, tr1) =>
         (.ok (create_response (.bool false) (.str ("处理创建工单命令失败: " ++ errStr e))
           PyVal.none PyVal.none env.now), tr1)
       | ok => ok)

/-- The except-branch of TicketHandler.handle_content_command: send the
error text to the chat (an exception inside this send propagates out of
the except-clause), then return the failure response. -/
def content_command_failure (env : Env) (chat_id : PyVal) (e : PyErr) (tr : Tr) : PRes PyVal :=
  let error_msg := "创建AWS工单失败: " ++ errStr e
  match send_message env chat_id "text" (.dict [("text", .str error_msg)]) tr with
  | (.error e2, tr1) => (.error e2, tr1)
  | (.ok _, tr1) =>
    (.ok (create_response (.bool false) (.str error_msg) PyVal.none PyVal.none env.now), tr1)

/-- TicketHandler.handle_content_command: validate (ValidationError
propagates), create the AWS support case with the hard-coded placeholder
title/service/severity, notify the chat; any exception of the try-block
goes through the except-branch above. -/
def handle_content_command (env : Env) (chat_id user_id content : PyVal) (tr : Tr) : PRes PyVal :=
  handle_exception "handle_content_command"
    (match validate_required_fields
        [("chat_id", chat_id), ("user_id", user_id), ("content", content)]
        ["chat_id", "user_id", "content"] "添加工单内容参数不完整" with
     | .error e => (.error e, tr)
     | .ok _ =>
       match create_support_case env (.str "示例工单标题")
           (.str "amazon-elastic-compute-cloud-linux") (.str "low") content tr with
       | (.error e, tr1) => content_command_failure env chat_id e tr1
       | (.ok case_id, tr1) =>
         let success_msg := "工单已创建，AWS工单ID: " ++ pyStr case_id
         match send_message env chat_id "text" (.dict [("text", .str success_msg)]) tr1 with
         | (.error e, tr2) => content_command_failure env chat_id e tr2
         | (.ok _, tr2) =>
           (.ok (create_response (.bool true) (.str success_msg) PyVal.none PyVal.none env.now), tr2))

/-- One rendered block of TicketHandler._build_history_message. -/
def render_history_block (strftime : String → PyVal → String)
    (ticket : List (String × PyVal)) : String :=
  let ticket_id := (lookupStr ticket "ticket_id").getD (.str "")
  let title := (lookupStr ticket "title").getD (.str "")
  let service := (lookupStr ticket "service").getD (.str "")
  let severity := (lookupStr ticket "severity").getD (.str "")
  let status := (lookupStr ticket "status").getD (.str "unknown")
  let created_at := (lookupStr ticket "created_at").getD (.str "")
  let chat_id := (lookupStr ticket "chat_id").getD (.str "")
  let created_time := format_timestamp strftime created_at "%Y-%m-%d %H:%M"
  "🎫 **" ++ pyStr ticket_id ++ "**\n" ++
  "📝 标题: " ++ pyStr title ++ "\n" ++
  "🔧 服务: " ++ pyStr service ++ "\n" ++
  "⚠️ 严重性: " ++ pyStr severity ++ "\n" ++
  "📊 状态: " ++ pyStr status ++ "\n" ++
  "📅 创建时间: " ++ created_time ++ "\n" ++
  (if truthy chat_id then "💬 讨论群聊: AWS工单-" ++ pyStr ticket_id ++ "\n"
   else "💬 讨论群聊: 未创建\n") ++
  "\n" ++ String.mk (List.replicate 30 '-') ++ "\n\n"

/-- TicketHandler._build_history_message: the header then one block per
ticket, concatenated in list order. -/
def build_history_message (strftime : String → PyVal → String)
    (tickets : List (List (String × PyVal))) : String :=
  tickets.foldl (fun acc t => acc ++ render_history_block strftime t) "📋 **历史工单记录:**\n\n"

/-- The except-branch of TicketHandler.handle_history_command: send the
error text to the chat (an exception inside this send propagates), then
return the failure response. -/
def history_command_failure (env : Env) (chat_id : PyVal) (e : PyErr) (tr : Tr) : PRes PyVal :=
  let error_msg := "查询历史工单失败: " ++ errStr e
  match send_message env chat_id "text" (.dict [("text", .str error_msg)]) tr with
  | (.error e2, tr1) => (.error e2, tr1)
  | (.ok _, tr1) =>
    (.ok (create_response (.bool false) (.str error_msg) PyVal.none PyVal.none env.now), tr1)

/-- TicketHandler.handle_history_command: validate (ValidationError
propagates), fetch the user's tickets, send either the no-records message
or the rendered history, and return the count response; any exception of
the try-block goes through the except-branch above. -/
def handle_history_command (env : Env) (chat_id user_id : PyVal) (tr : Tr) : PRes PyVal :=
  handle_exception "handle_history_command"
    (match validate_required_fields [("chat_id", chat_id), ("user_id", user_id)]
        ["chat_id", "user_id"] "查询历史工单参数不完整" with
     | .error e => (.error e, tr)
     | .ok _ =>
       match get_user_tickets env user_id PyVal.none tr with
       | (.error e, tr1) => history_command_failure env chat_id e tr1
       | (.ok tickets, tr1) =>
         if tickets.isEmpty then
           match send_message env chat_id "text" (.dict [("text", .str "暂无历史工单记录")]) tr1 with
           | (.error e, tr2) => history_command_failure env chat_id e tr2
           | (.ok _, tr2) =>
             (.ok (create_response (.bool true) (.str "暂无历史工单记录")
               PyVal.none PyVal.none env.now), tr2)
         else
           match send_message env chat_id "text"
               (.dict [("text", .str (build_history_message env.o.strftime tickets))]) tr1 with
           | (.error e, tr2) => history_command_failure env chat_id e tr2
           | (.ok _, tr2) =>
             (.ok (create_response (.bool true)
               (.str ("已发送 " ++ intStr (Int.ofNat tickets.length) ++ " 条历史工单记录"))
               PyVal.none PyVal.none env.now), tr2))

/-- TicketHandler.handle_help_command: send the static help text; the
try/except converts a send failure into
create_response(False, "发送帮助信息失败: ..."). -/
def handle_help_command (env : Env) (chat_id : PyVal) (tr : Tr) : PRes PyVal :=
  handle_exception "handle_help_command"
    (let help_text :=
      "🤖 **AWS工单机器人帮助**\n\n**支持的命令:**\n• `开工单 [标题]` - 创建新工单\n" ++
      "• `内容 [详情]` - 添加工单详情\n• `历史` - 查看历史工单\n• `帮助` - 显示帮助信息\n\n" ++
      "**使用示例:**\n• 开工单 EC2实例无法启动\n• 内容 我的EC2实例在启动时出现错误...\n\n" ++
      "**功能特点:**\n• 自动创建讨论群聊\n• 支持多种AWS服务\n• 历史工单查询\n• 实时状态更新"
    match send_message env chat_id "text" (.dict [("text", .str help_text)]) tr with
    | (.error e, tr1) =>
      (.ok (create_response (.bool false) (.str ("发送帮助信息失败: " ++ errStr e))
        PyVal.none PyVal.none env.now), tr1)
    | (.ok _, tr1) =>
      (.ok (create_response (.bool true) (.str "帮助信息已发送") PyVal.none PyVal.none env.now), tr1))

/-- TicketHandler._parse_feishu_event: normalize the two event-envelope
shapes into the (chat_id, text, user_id) triple, each component starting
as ''.  The whole body runs under try/except, so any exception returns
the components assigned so far (the assignment order is chat_id, then
text, then user_id). -/
def parse_feishu_event (env : Env) (body : PyVal) : PyVal × PyVal × PyVal :=
  let e0 : PyVal := .str ""
  match pyIn "header" body with
  | .error _ => (e0, e0, e0)
  | .ok hdr =>
  match pyIn "event" body with
  | .error _ => (e0, e0, e0)
  | .ok evt =>
  if hdr && evt then
    match pySub body "event" with
    | .error _ => (e0, e0, e0)
    | .ok event_data =>
    match pyGetD event_data "type" (.str "") with
    | .error _ => (e0, e0, e0)
    | .ok event_type =>
    if pyEq event_type (.str "message") then
      match pyGetD event_data "message" (.dict []) with
      | .error _ => (e0, e0, e0)
      | .ok message =>
      match pyGetD message "chat_id" (.str "") with
      | .error _ => (e0, e0, e0)
      | .ok chat_id =>
      match pyGetD message "content" (.str "\x7b\x7d") with
      | .error _ => (chat_id, e0, e0)
      | .ok content_raw =>
      let content := safe_json_loads env.o.loads content_raw PyVal.none
      match pyGetD content "text" (.str "") with
      | .error _ => (chat_id, e0, e0)
      | .ok text =>
      match pyGetD event_data "sender" (.dict []) with
      | .error _ => (chat_id, text, e0)
      | .ok sender =>
      match pyGetD sender "sender_id" (.dict []) with
      | .error _ => (chat_id, text, e0)
      | .ok sender_id =>
      match pyGetD sender_id "user_id" (.str "") with
      | .error _ => (chat_id, text, e0)
      | .ok user_id => (chat_id, text, user_id)
    else (e0, e0, e0)
  else
    match pyIn "type" body with
    | .error _ => (e0, e0, e0)
    | .ok tin =>
    if tin then
      match pyGetD body "type" PyVal.none with
      | .error _ => (e0, e0, e0)
      | .ok tval =>
      if pyEq tval (.str "message") then
        match pyGetD body "message" (.dict []) with
        | .error _ => (e0, e0, e0)
        | .ok message =>
        match pyGetD message "chat_id" (.str "") with
        | .error _ => (e0, e0, e0)
        | .ok chat_id =>
        match pyGetD message "content" (.str "\x7b\x7d") with
        | .error _ => (chat_id, e0, e0)
        | .ok content_raw =>
        let content := safe_json_loads env.o.loads content_raw PyVal.none
        match pyGetD content "text" (.str "") with
        | .error _ => (chat_id, e0, e0)
        | .ok text =>
        match pyGetD body "sender_id" (.dict []) with
        | .error _ => (chat_id, text, e0)
        | .ok sender_id =>
        match pyGetD sender_id "user_id" (.str "") with
        | .error _ => (chat_id, text, e0)
        | .ok user_id => (chat_id, text, user_id)
      else (e0, e0, e0)
    else (e0, e0, e0)

/-- The prefix dispatch of TicketHandler.handle_feishu_event, entered
once chat_id, text and user_id are all truthy.  text.startswith raises
AttributeError on a non-str text, which the caller's except turns into
the 500 response.  The no-title and no-content prompts send a message and
acknowledge; an unmatched text acknowledges silently. -/
def handle_feishu_event_dispatch (env : Env) (chat_id text user_id : PyVal) (tr : Tr) :
    PRes PyVal :=
  match text with
  | .str s =>
    if strStartsWith s "开工单" then
      let title := pyStrip (strDrop s 3)
      if title ≠ "" then handle_create_ticket_command env chat_id title tr
      else
        match send_message env chat_id "text"
            (.dict [("text", .str "请提供工单标题，例如：开工单 EC2实例无法启动")]) tr with
        | (.error e, tr1) => (.error e, tr1)
        | (.ok _, tr1) =>
          (.ok (create_response (.int 200) (.dict [("success", .bool true)])
            PyVal.none PyVal.none env.now), tr1)
    else if strStartsWith s "内容" then
      let content := pyStrip (strDrop s 2)
      if content ≠ "" then handle_content_command env chat_id user_id (.str content) tr
      else
        match send_message env chat_id "text"
            (.dict [("text", .str "请提供工单内容，例如：内容 我的EC2实例无法启动，错误信息为...")]) tr with
        | (.error e, tr1) => (.error e, tr1)
        | (.ok _, tr1) =>
          (.ok (create_response (.int 200) (.dict [("success", .bool true)])
            PyVal.none PyVal.none env.now), tr1)
    else if pyStrip s = "帮助" then handle_help_command env chat_id tr
    else if pyStrip s = "历史" then handle_history_command env chat_id user_id tr
    else
      (.ok (create_response (.int 200) (.dict [("success", .bool true)])
        PyVal.none PyVal.none env.now), tr)
  | other =>
    (.error (.attributeError
      ("\x27" ++ pyTypeName other ++ "\x27 object has no attribute \x27startswith\x27")), tr)

/-- The try-block of TicketHandler.handle_feishu_event: parse the event;
when a component of the triple is falsy, acknowledge with
create_response(200, dict) without touching any gateway; otherwise run
the prefix dispatch. -/
def handle_feishu_event_try (env : Env) (body : PyVal) (tr : Tr) : PRes PyVal :=
  match parse_feishu_event env body with
  | (chat_id, text, user_id) =>
    if !truthy chat_id || !truthy text || !truthy user_id then
      (.ok (create_response (.int 200)
        (.dict [("success", .bool true), ("message", .str "事件已接收但无需处理")])
        PyVal.none PyVal.none env.now), tr)
    else
      handle_feishu_event_dispatch env chat_id text user_id tr

/-- TicketHandler.handle_feishu_event: its except-clause converts any
exception of the try-block into create_response(500, dict with the error
text); the status-code arguments 200/500 land in the envelope's success
field, and a dict lands in its message field, because create_response is
called positionally with (status, payload). -/
def handle_feishu_event (env : Env) (body : PyVal) (tr : Tr) : PRes PyVal :=
  handle_exception "handle_feishu_event"
    (match handle_feishu_event_try env body tr with
     | (.error e, tr1) =>
       (.ok (create_response (.int 500)
         (.dict [("error", .str ("处理飞书事件失败: " ++ errStr e))])
         PyVal.none PyVal.none env.now), tr1)
     | ok => ok)

/-- lambda_function.lambda_handler: parse path/method/body, construct the
ticket handler (validating the service configurations), echo a challenge
body on the webhook route, otherwise dispatch to the event or card-action
handler; any exception gives the 500 response, unmatched routes the 404
response. -/
def lambda_handler (env : Env) (event : PyVal) (tr : Tr) : PRes PyVal :=
  match
    (match pyGetD event "path" (.str "") with
     | .error e => (.error e, tr)
     | .ok path =>
     match pyGetD event "httpMethod" (.str "") with
     | .error e => (.error e, tr)
     | .ok http_method =>
     match pyGetD event "body" (.str "\x7b\x7d") with
     | .error e => (.error e, tr)
     | .ok raw_body =>
     let body := safe_json_loads env.o.loads raw_body PyVal.none
     match get_ticket_handler_init env with
     | .error e => (.error e, tr)
     | .ok _ =>
     if pyEq path (.str "/webhook") && pyEq http_method (.str "POST") then
       match pyIn "challenge" body with
       | .error e => (.error e, tr)
       | .ok true =>
         match pySub body "challenge" with
         | .error e => (.error e, tr)
         | .ok ch =>
           (.ok (create_response (.int 200) (.dict [("challenge", ch)])
             PyVal.none PyVal.none env.now), tr)
       | .ok false => handle_feishu_event env body tr
     else if pyEq path (.str "/card_action") && pyEq http_method (.str "POST") then
       handle_card_action env body tr
     else
       (.ok (create_response (.int 404) (.dict [("error", .str "Not Found")])
         PyVal.none PyVal.none env.now), tr) : PRes PyVal) with
  | (.error e, tr1) =>
    (.ok (create_response (.int 500) (.dict [("error", .str ("服务器内部错误: " ++ errStr e))])
      PyVal.none PyVal.none env.now), tr1)
  | ok => ok

/-- Fixture: a lark message-create response that succeeds. -/
def okMsgResp : LarkMsgResp := ⟨true, "success", 0, "om_1"⟩

/-- Fixture: a lark chat-create response that succeeds. -/
def okChatResp : LarkChatResp := ⟨true, "success", 0, .str "oc_1"⟩

/-- Fixture: oracles on which every gateway call succeeds, json.loads
always fails, and strftime renders a fixed text. -/
def oraclesOk : Oracles where
  msgCreate := fun _ _ _ _ => .ok okMsgResp
  chatCreate := fun _ _ _ _ _ => .ok okChatResp
  putItem := fun _ _ _ => .ok ()
  scan := fun _ _ _ => .ok []
  caseCreate := fun _ _ _ _ _ => .ok "case-123"
  loads := fun _ => Option.none
  dumps := fun _ => "dumped"
  strftime := fun _ _ => "2025-01-01 00:00"

/-- Fixture: a complete configuration. -/
def cfg0 : Config := ⟨.str "app", .str "secret", "us-east-1", "aws-tickets", 10, "pending"⟩

/-- Fixture: environment with the all-success oracles at a fixed instant. -/
def env0 : Env := ⟨cfg0, oraclesOk, 1700000000⟩

/-- Helper: a list whose characters all fail a predicate is unchanged by
dropWhile. -/
theorem dropWhile_of_all_false {p : Char → Bool} :
    ∀ l : List Char, (∀ c ∈ l, p c = false) → l.dropWhile p = l := by
  intro l h
  induction l with
  | nil => rfl
  | cons c rest _ih =>
    simp [List.dropWhile, h c (List.mem_cons_self c rest)]

/-- Helper: pyStrip is the identity on whitespace-free text. -/
theorem pyStrip_of_no_space (l : List Char) (h : ∀ c ∈ l, isSpaceChar c = false) :
    pyStrip (String.mk l) = String.mk l := by
  unfold pyStrip
  have h2 : ∀ c ∈ l.reverse, isSpaceChar c = false := by
    intro c hc
    exact h c (List.mem_reverse.mp hc)
  have e1 : (String.mk l).toList = l := rfl
  rw [e1, dropWhile_of_all_false l h, dropWhile_of_all_false l.reverse h2,
    List.reverse_reverse]

/-- Helper: the fuel-based digit list agrees with Nat.digits 10 whenever
the fuel covers the number. -/
theorem natDigitsRevAux_eq_digits :
    ∀ fuel n : Nat, n ≤ fuel → natDigitsRevAux fuel n = Nat.digits 10 n := by
  intro fuel
  induction fuel with
  | zero =>
    intro n hn
    have : n = 0 := Nat.le_zero.mp hn
    subst this
    simp [natDigitsRevAux]
  | succ fuel ih =>
    intro n hn
    match n with
    | 0 => simp [natDigitsRevAux]
    | m + 1 =>
      show ((m + 1) % 10) :: natDigitsRevAux fuel ((m + 1) / 10) = _
      rw [ih ((m + 1) / 10) (by omega)]
      rw [Nat.digits_def' (b := 10) (by norm_num) (Nat.succ_pos m)]

/-- Helper: the fuel natDigitsRev uses is always enough. -/
theorem natDigitsRev_eq_digits (n : Nat) : natDigitsRev n = Nat.digits 10 n :=
  natDigitsRevAux_eq_digits n n (Nat.le_refl n)

/-- Helper: a decimal digit character is decoded back to its value. -/
theorem digitVal_digitChar (d : Nat) (hd : d < 10) : digitVal (digitChar d) = some d := by
  interval_cases d <;> rfl

/-- Helper: decimal digit characters are not whitespace. -/
theorem digitChar_not_space (d : Nat) (hd : d < 10) : isSpaceChar (digitChar d) = false := by
  interval_cases d <;> rfl

/-- Helper: a run of rendered digits decodes to the digit values. -/
theorem digitsOf_map_digitChar :
    ∀ l : List Nat, (∀ d ∈ l, d < 10) → digitsOf (l.map digitChar) = some l := by
  intro l h
  induction l with
  | nil => rfl
  | cons d rest ih =>
    have hd : d < 10 := h d (List.mem_cons_self d rest)
    have hrest : ∀ x ∈ rest, x < 10 := fun x hx => h x (List.mem_cons_of_mem d hx)
    simp [digitsOf, digitVal_digitChar d hd, ih hrest]

/-- Helper: the rendered decimal string of a positive number decodes to
the number. -/
theorem decStrToNat_natToDecStr (n : Nat) (hn : n ≠ 0) :
    decStrToNat ((natToDecStr n).toList) = some n := by
  have hdig : ∀ d ∈ Nat.digits 10 n, d < 10 := fun d hd => Nat.digits_lt_base (by norm_num) hd
  have hne : Nat.digits 10 n ≠ [] := Nat.digits_ne_nil_iff_ne_zero.mpr hn
  have e1 : (natToDecStr n).toList = ((Nat.digits 10 n).reverse).map digitChar := by
    unfold natToDecStr
    rw [if_neg hn]
    show ((natDigitsRev n).map digitChar).reverse = _
    rw [natDigitsRev_eq_digits, List.map_reverse]
  rw [e1]
  have hdig2 : ∀ d ∈ (Nat.digits 10 n).reverse, d < 10 := by
    intro d hd
    exact hdig d (List.mem_reverse.mp hd)
  have hlist : ((Nat.digits 10 n).reverse).map digitChar ≠ [] := by
    simp [hne]
  unfold decStrToNat
  rw [digitsOf_map_digitChar _ hdig2]
  match hm : ((Nat.digits 10 n).reverse).map digitChar with
  | [] => exact absurd hm hlist
  | c :: cs =>
    simp only []
    rw [List.reverse_reverse]
    rw [Nat.ofDigits_digits]

/-- Helper: the rendered decimal string has no whitespace. -/
theorem natToDecStr_no_space (n : Nat) :
    ∀ c ∈ (natToDecStr n).toList, isSpaceChar c = false := by
  intro c hc
  unfold natToDecStr at hc
  by_cases hn : n = 0
  · rw [if_pos hn] at hc
    simp only [show ("0").toList = ['0'] from rfl, List.mem_singleton] at hc
    rw [hc]; rfl
  · rw [if_neg hn] at hc
    have : c ∈ ((Nat.digits 10 n).map digitChar).reverse := by
      rw [← natDigitsRev_eq_digits]; exact hc
    rw [List.mem_reverse, List.mem_map] at this
    obtain ⟨d, hd, rfl⟩ := this
    exact digitChar_not_space d (Nat.digits_lt_base (by norm_num) hd)

/-- Helper: a rendered digit string's first character is a digit, so the
sign arms of parseIntPy do not fire on it. -/
theorem parseIntPy_natToDecStr (n : Nat) : parseIntPy (natToDecStr n) = some (n : Int) := by
  by_cases hn : n = 0
  · subst hn; rfl
  · unfold parseIntPy
    have hself : pyStrip (natToDecStr n) = natToDecStr n := by
      have := pyStrip_of_no_space (natToDecStr n).toList (natToDecStr_no_space n)
      simpa using this
    rw [hself]
    have hdec := decStrToNat_natToDecStr n hn
    have hne : Nat.digits 10 n ≠ [] := Nat.digits_ne_nil_iff_ne_zero.mpr hn
    have e1 : (natToDecStr n).toList = ((Nat.digits 10 n).reverse).map digitChar := by
      unfold natToDecStr
      rw [if_neg hn]
      show ((natDigitsRev n).map digitChar).reverse = _
      rw [natDigitsRev_eq_digits, List.map_reverse]
    match hm : (natToDecStr n).toList with
    | [] =>
      rw [e1] at hm
      simp [hne] at hm
    | c :: cs =>
      have hcdig : ∃ d, d < 10 ∧ c = digitChar d := by
        rw [e1] at hm
        have : c ∈ ((Nat.digits 10 n).reverse).map digitChar := by
          rw [hm]; exact List.mem_cons_self c cs
        rw [List.mem_map] at this
        obtain ⟨d, hd, hcd⟩ := this
        exact ⟨d, Nat.digits_lt_base (by norm_num) (List.mem_reverse.mp hd), hcd.symm⟩
      obtain ⟨d, hd10, rfl⟩ := hcdig
      have hminus : digitChar d ≠ '-' := by
        intro h
        have := digitVal_digitChar d hd10
        rw [h] at this
        exact Option.noConfusion this
      have hplus : digitChar d ≠ '+' := by
        intro h
        have := digitVal_digitChar d hd10
        rw [h] at this
        exact Option.noConfusion this
      rw [hm] at hdec
      simp only [hminus, hplus, if_false, reduceIte]
      rw [hdec]

/-- Helper: Python int(str(n)) recovers any int n in the embedding. -/
theorem parseIntPy_intStr (n : Int) : parseIntPy (intStr n) = some n := by
  by_cases hn : n < 0
  · unfold intStr
    rw [if_pos hn]
    unfold parseIntPy
    have habs : n.natAbs ≠ 0 := by omega
    have hnosp : ∀ c ∈ ("-" ++ natToDecStr n.natAbs).toList, isSpaceChar c = false := by
      intro c hc
      have : c ∈ '-' :: (natToDecStr n.natAbs).toList := by
        simpa using hc
      rcases List.mem_cons.mp this with h | h
      · rw [h]; rfl
      · exact natToDecStr_no_space n.natAbs c h
    have hself : pyStrip ("-" ++ natToDecStr n.natAbs) = "-" ++ natToDecStr n.natAbs := by
      have := pyStrip_of_no_space ("-" ++ natToDecStr n.natAbs).toList hnosp
      simpa using this
    rw [hself]
    have hlist : ("-" ++ natToDecStr n.natAbs).toList = '-' :: (natToDecStr n.natAbs).toList := by
      simp
    rw [hlist]
    show (match decStrToNat (natToDecStr n.natAbs).toList with
      | some m => some (-(m : Int))
      | Option.none => (Option.none : Option Int)) = some n
    rw [decStrToNat_natToDecStr n.natAbs habs]
    show some (-(n.natAbs : Int)) = some n
    congr 1
    omega
  · unfold intStr
    rw [if_neg hn]
    rw [parseIntPy_natToDecStr n.natAbs]
    congr 1
    omega

/-- Helper: values in the scope of the round-trip claim (strings,
non-bool ints, None). -/
def scalarRT : PyVal → Bool
  | .str _ => true
  | .int _ => true
  | .none => true
  | _ => false

/-- Helper: one scalar value survives the DynamoDB conversion round trip. -/
theorem convert_value_roundtrip (v : PyVal) (h : scalarRT v = true) :
    convert_from_dynamodb_value (convert_to_dynamodb_value v) = v := by
  match v with
  | .str s => rfl
  | .none => rfl
  | .int n =>
    show convert_from_dynamodb_value (.N (intStr n)) = .int n
    simp only [convert_from_dynamodb_value, parseIntPy_intStr n]
  | .bool b => exact absurd h (by simp [scalarRT])
  | .float q => exact absurd h (by simp [scalarRT])
  | .list xs => exact absurd h (by simp [scalarRT])
  | .dict kvs => exact absurd h (by simp [scalarRT])

/-- C10: converting a flat mapping whose values are strings, non-boolean
integers or None to the DynamoDB typed-item format and back restores the
mapping exactly; boolean values are not preserved: since bool is an int
subtype in Python, True/False go through the numeric branch as
str(True)/str(False) and are read back as the strings True/False. -/
theorem C10_dynamodb_roundtrip :
    (∀ kvs : List (String × PyVal), (∀ kv ∈ kvs, scalarRT kv.2 = true) →
      convert_from_dynamodb_item (convert_to_dynamodb_item kvs) = kvs) ∧
    (∀ b : Bool,
      convert_from_dynamodb_value (convert_to_dynamodb_value (.bool b)) =
        .str (if b then "True" else "False")) := by
  constructor
  · intro kvs h
    induction kvs with
    | nil => rfl
    | cons kv rest ih =>
      have h1 : scalarRT kv.2 = true := h kv (List.mem_cons_self kv rest)
      have h2 : ∀ x ∈ rest, scalarRT x.2 = true := fun x hx => h x (List.mem_cons_of_mem kv hx)
      show (kv.1, convert_from_dynamodb_value (convert_to_dynamodb_value kv.2)) ::
          convert_from_dynamodb_item (convert_to_dynamodb_item rest) = kv :: rest
      rw [convert_value_roundtrip kv.2 h1, ih h2]
  · intro b
    cases b <;> rfl

/-- Witness for C10 at a concrete mapping and both booleans. -/
theorem C10_dynamodb_roundtrip_witness :
    convert_from_dynamodb_item (convert_to_dynamodb_item
      [("ticket_id", .str "TICKET-1"), ("count", .int (-42)), ("chat_id", PyVal.none)]) =
      [("ticket_id", .str "TICKET-1"), ("count", .int (-42)), ("chat_id", PyVal.none)] ∧
    convert_from_dynamodb_value (convert_to_dynamodb_value (.bool true)) = .str "True" := by
  constructor
  · exact C10_dynamodb_roundtrip.1 _ (by intro kv hkv; fin_cases hkv <;> rfl)
  · exact C10_dynamodb_roundtrip.2 true

/-- Value of the last entry of a mapping-shaped options dict whose key
contains the substring service (the dict loop's overwrite semantics). -/
def lastServiceD : List (String × PyVal) → Option PyVal
  | [] => Option.none
  | (k, v) :: rest =>
    match lastServiceD rest with
    | some w => some w
    | Option.none => if strHasSub "service" k then some v else Option.none

/-- Value of the last entry of a mapping-shaped options dict whose key
contains severity but not service (the elif arm). -/
def lastSeverityD : List (String × PyVal) → Option PyVal
  | [] => Option.none
  | (k, v) :: rest =>
    match lastSeverityD rest with
    | some w => some w
    | Option.none =>
      if !strHasSub "service" k && strHasSub "severity" k then some v else Option.none

/-- Whether a list-shaped options entry (a dict) has the exact key k --
the membership test Python's `k in option` performs on a dict. -/
def optionHasKey (o : PyVal) (k : String) : Bool :=
  match o with
  | .dict okvs => okvs.any (fun p => p.1 == k)
  | _ => false

/-- option.get('value', '') for a dict entry. -/
def optionValue (o : PyVal) : PyVal :=
  match o with
  | .dict okvs => (lookupStr okvs "value").getD (.str "")
  | _ => .str ""

/-- Value of the last list entry holding the exact key service. -/
def listLastService : List PyVal → Option PyVal
  | [] => Option.none
  | o :: rest =>
    match listLastService rest with
    | some w => some w
    | Option.none => if optionHasKey o "service" then some (optionValue o) else Option.none

/-- Value of the last list entry holding the exact key severity but not
service (the elif arm). -/
def listLastSeverity : List PyVal → Option PyVal
  | [] => Option.none
  | o :: rest =>
    match listLastSeverity rest with
    | some w => some w
    | Option.none =>
      if !optionHasKey o "service" && optionHasKey o "severity" then some (optionValue o)
      else Option.none

/-- Whether a Python value is a dict. -/
def isDictB : PyVal → Bool
  | .dict _ => true
  | _ => false

/-- Helper: characterization of the dict-shaped option loop: each field
ends at the value of its last matching entry (substring match on the
key). -/
theorem parse_form_options_dict_char :
    ∀ (kvs : List (String × PyVal)) (a b : PyVal),
      parse_form_options_dict (a, b) kvs =
        ((lastServiceD kvs).getD a, (lastSeverityD kvs).getD b) := by
  intro kvs
  induction kvs with
  | nil => intro a b; rfl
  | cons kv rest ih =>
    intro a b
    match kv with
    | (k, v) =>
      simp only [parse_form_options_dict, lastServiceD, lastSeverityD]
      cases hs : strHasSub "service" k <;> cases hv : strHasSub "severity" k <;>
        cases hls : lastServiceD rest <;> cases hlv : lastSeverityD rest <;>
          simp_all [ih]

/-- Helper: characterization of the list-shaped option loop over dict
entries: each field ends at the value of its last matching entry (exact
key membership), an entry with a service key not also counting for
severity. -/
theorem parse_form_options_list_char :
    ∀ (xs : List PyVal) (a b : PyVal), (∀ o ∈ xs, isDictB o = true) →
      parse_form_options_list (a, b) xs =
        .ok ((listLastService xs).getD a, (listLastSeverity xs).getD b) := by
  intro xs
  induction xs with
  | nil => intro a b _; rfl
  | cons o rest ih =>
    intro a b h
    have ho : isDictB o = true := h o (List.mem_cons_self o rest)
    have hrest : ∀ x ∈ rest, isDictB x = true := fun x hx => h x (List.mem_cons_of_mem o hx)
    have ih2 : ∀ a b : PyVal, parse_form_options_list (a, b) rest =
        .ok ((listLastService rest).getD a, (listLastSeverity rest).getD b) :=
      fun a b => ih a b hrest
    match o, ho with
    | .dict okvs, _ =>
      simp only [parse_form_options_list, parse_form_option_step, pyIn, pyGetD,
        listLastService, listLastSeverity, optionHasKey, optionValue]
      cases hs : okvs.any (fun p => p.1 == "service") <;>
        cases hv : okvs.any (fun p => p.1 == "severity") <;>
          cases hls : listLastService rest <;> cases hlv : listLastSeverity rest <;>
            simp_all [ih2]

/-- Counterexample input for C6: a list-shaped options value whose first
entry's key service_type contains the token service as a substring (with
value A) and whose second and third entries carry the exact key service
(values B then C). -/
def cex6 : PyVal := .dict [("action", .dict [("option", .list [
  .dict [("service_type", .str "x"), ("value", .str "A")],
  .dict [("service", .str "y"), ("value", .str "B")],
  .dict [("service", .str "y"), ("value", .str "C")]])])]

/-- Counterexample for C6: on a sequence-of-objects options value the
claim predicts substring matching (so the first entry, key service_type,
value A, would match first and win); the code instead tests exact key
membership on each object and lets later matches overwrite earlier ones,
returning C -- not A. -/
theorem C6_first_match_substring_counterexample :
    parse_form_options cex6 = .ok (.str "C", .str "") ∧ PyVal.str "C" ≠ PyVal.str "A" := by
  refine ⟨rfl, ?_⟩
  intro h
  injection h with h2
  exact absurd h2 (by decide)

/-- C6 amended: the card-action resolver extracts service/severity from a
mapping-shaped options value by substring containment of the tokens in
the field key, but from a sequence-of-objects value by exact key
membership in each object; in both shapes, when several entries match a
field the LAST matching entry determines that field's value (and an entry
matching service is not also tested for severity). -/
theorem C6_amended_last_match_semantics :
    (∀ kvs : List (String × PyVal),
      parse_form_options (.dict [("action", .dict [("option", .dict kvs)])]) =
        .ok ((lastServiceD kvs).getD (.str ""), (lastSeverityD kvs).getD (.str ""))) ∧
    (∀ xs : List PyVal, (∀ o ∈ xs, isDictB o = true) →
      parse_form_options (.dict [("action", .dict [("option", .list xs)])]) =
        .ok ((listLastService xs).getD (.str ""), (listLastSeverity xs).getD (.str ""))) := by
  constructor
  · intro kvs
    show Except.ok (parse_form_options_dict (.str "", .str "") kvs) = _
    rw [parse_form_options_dict_char]
  · intro xs h
    show parse_form_options_list (.str "", .str "") xs = _
    rw [parse_form_options_list_char xs _ _ h]

/-- Witness for C6's amended statement at concrete inputs of both shapes. -/
theorem C6_amended_witness :
    parse_form_options (.dict [("action", .dict [("option", .dict
      [("my_service_kind", .str "s1"), ("the_severity", .str "v1"),
       ("other_service", .str "s2")])])]) = .ok (.str "s2", .str "v1") ∧
    parse_form_options (.dict [("action", .dict [("option", .list
      [.dict [("severity", .str "x"), ("value", .str "w1")],
       .dict [("service", .str "y"), ("value", .str "w2")]])])]) =
      .ok (.str "w2", .str "w1") := by
  constructor
  · exact (C6_amended_last_match_semantics.1 _).trans rfl
  · exact (C6_amended_last_match_semantics.2 _ (by intro o ho; fin_cases ho <;> rfl)).trans rfl

/-- C7: the card-action resolver uses a mapping-shaped value field as the
structured object itself, JSON-parses a string-shaped value field, so a
stringified value that parses to a mapping yields the same canonical
output as that mapping passed directly; a string the JSON parser rejects
yields the empty action (an empty dict, no fields) -- and the resolver is
a total function, it never raises. -/
theorem C7_action_value_canonicalization :
    (∀ (loads : String → Option PyVal) (kvs : List (String × PyVal)),
      parse_action_value loads (.dict kvs) = .dict kvs) ∧
    (∀ (loads : String → Option PyVal) (s : String) (kvs : List (String × PyVal)),
      loads s = some (.dict kvs) →
      parse_action_value loads (.str s) = parse_action_value loads (.dict kvs)) ∧
    (∀ (loads : String → Option PyVal) (s : String),
      loads s = Option.none → parse_action_value loads (.str s) = .dict []) := by
  refine ⟨fun loads kvs => rfl, fun loads s kvs h => ?_, fun loads s h => ?_⟩
  · show safe_json_loads loads (.str s) (.dict []) = .dict kvs
    simp [safe_json_loads, h]
  · show safe_json_loads loads (.str s) (.dict []) = .dict []
    simp [safe_json_loads, h]

/-- Fixture: a json.loads oracle that parses exactly the text J. -/
def loads7 : String → Option PyVal := fun s =>
  if s = "J" then some (.dict [("action", .str "submit_ticket")]) else Option.none

/-- Witness for C7: the stringified and mapping-shaped value fields give
identical output, and an unparseable string gives the empty action. -/
theorem C7_action_value_witness :
    parse_action_value loads7 (.str "J") =
      parse_action_value loads7 (.dict [("action", .str "submit_ticket")]) ∧
    parse_action_value loads7 (.str "not json") = .dict [] := by
  constructor
  · exact C7_action_value_canonicalization.2.1 loads7 "J" _ rfl
  · exact C7_action_value_canonicalization.2.2 loads7 "not json" rfl

/-- Helper: the envelope shape of the claims: a dict with a boolean
success, a string message and an integer timestamp. -/
def is_envelope : PyVal → Bool
  | .dict kvs =>
    (match lookupStr kvs "success" with | some (.bool _) => true | _ => false) &&
    (match lookupStr kvs "message" with | some (.str _) => true | _ => false) &&
    (match lookupStr kvs "timestamp" with | some (.int _) => true | _ => false)
  | _ => false

/-- Helper: create_response with a boolean success and string message is
an envelope, whatever data/error_code are. -/
theorem is_envelope_create_response (b : Bool) (m : String) (d ec : PyVal) (now : Int) :
    is_envelope (create_response (.bool b) (.str m) d ec now) = true := by
  unfold create_response
  cases hd : pyBeq d PyVal.none <;> cases he : truthy ec <;>
    simp [is_envelope, lookupStr]

/-- C2: a submit_ticket card action in which any of title, service,
severity or the submitting user's id is empty (falsy) is rejected with
success=False and the message 请完善以下信息 listing exactly the missing
fields in the fixed order 标题, 服务类型, 严重性, 用户ID, and the effect
trace is unchanged: no store write, no gateway call of any kind. -/
theorem C2_missing_fields_rejected
    (env : Env) (bkvs akvs avkvs : List (String × PyVal)) (tr : Tr)
    (haction : lookupStr bkvs "action" = some (.dict akvs))
    (hav : parse_action_value env.o.loads ((lookupStr akvs "value").getD (.dict [])) =
      .dict avkvs)
    (htype : lookupStr avkvs "action" = some (.str "submit_ticket"))
    (service severity : PyVal)
    (hopts2 : parse_form_options (.dict bkvs) = .ok (service, severity))
    (hmissing :
      (truthy ((lookupStr avkvs "title").getD (.str "")) && truthy service &&
        truthy severity && truthy ((lookupStr bkvs "user_id").getD (.str ""))) = false) :
    handle_card_action env (.dict bkvs) tr =
      (.ok (create_response (.bool false)
        (.str ("请完善以下信息: " ++ joinSep ", "
          (submit_missing_fields ((lookupStr avkvs "title").getD (.str ""))
            service severity ((lookupStr bkvs "user_id").getD (.str "")))))
        PyVal.none PyVal.none env.now), tr) := by
  unfold handle_card_action handle_card_action_try
  simp only [pyGetD, haction, Option.getD_some]
  rw [hav]
  simp only [pyGetD, htype, Option.getD_some]
  have hpe : pyEq (.str "submit_ticket") (.str "submit_ticket") = true := by
    simp [pyEq, pyNum, pyBeq]
  rw [hpe]
  simp only [if_true]
  unfold handle_submit_ticket handle_submit_ticket_body
  simp only [pyGetD, hopts2]
  rw [hmissing]
  simp [handle_exception]

/-- Fixture: a submit_ticket card action missing its title and severity
(user id and service present). -/
def submitBodyNoTitle : PyVal := .dict [
  ("user_id", .str "u1"),
  ("action", .dict [
    ("value", .dict [("action", .str "submit_ticket")]),
    ("option", .dict [("service_type", .str "aws-lambda")])])]

/-- Witness for C2: at the concrete submission above the handler returns
success=False, the message naming exactly 标题 and 严重性 in the fixed
order, with an empty effect trace. -/
theorem C2_missing_fields_rejected_witness :
    handle_card_action env0 submitBodyNoTitle [] =
      (.ok (create_response (.bool false) (.str "请完善以下信息: 标题, 严重性")
        PyVal.none PyVal.none 1700000000), []) := by
  have h := C2_missing_fields_rejected env0
    [("user_id", .str "u1"),
     ("action", .dict [
       ("value", .dict [("action", .str "submit_ticket")]),
       ("option", .dict [("service_type", .str "aws-lambda")])])]
    [("value", .dict [("action", .str "submit_ticket")]),
     ("option", .dict [("service_type", .str "aws-lambda")])]
    [("action", .str "submit_ticket")]
    [] rfl rfl rfl (.str "aws-lambda") (.str "") rfl rfl
  exact h

/-- Fixture: a complete submit_ticket card action (title, user id,
service and severity all present). -/
def submitBody : PyVal := .dict [
  ("user_id", .str "u1"),
  ("action", .dict [
    ("value", .dict [("action", .str "submit_ticket"), ("title", .str "T1")]),
    ("option", .dict [("service_type", .str "aws-lambda"), ("severity_level", .str "low")])])]

/-- Helper: a successful retryCall result comes from some attempt of the
wrapped body. -/
theorem retryGo_ok_origin {α : Type} (retryable : PyErr → Bool) (f : Nat → Tr → PRes α)
    (cd b : Rat) :
    ∀ (r k : Nat) (tr tr2 : Tr) (v : α),
      retryGo retryable f cd b k r tr = (.ok v, tr2) → ∃ k2 tr3, f k2 tr3 = (.ok v, tr2) := by
  intro r
  induction r generalizing cd with
  | zero =>
    intro k tr tr2 v h
    exact absurd h (by simp [retryGo])
  | succ r ih =>
    intro k tr tr2 v h
    unfold retryGo at h
    split at h
    next a tr1 heq =>
      exact ⟨k, tr, heq.trans h⟩
    next e tr1 heq =>
      split at h
      · split at h
        · exact absurd h (by simp)
        · exact ih (cd * b) (k + 1) (tr1 ++ [Effect.sleep cd]) tr2 v h
      · exact absurd h (by simp)

/-- Helper: one attempt of create_chat either raises or returns a truthy
chat id -- there is no code path on which it returns a falsy value (its
docstring's promised None-on-failure does not exist). -/
theorem create_chat_inner_ok_truthy (env : Env) (n d : String) (ow ul : PyVal)
    (k : Nat) (tr tr2 : Tr) (v : PyVal)
    (h : create_chat_inner env n d ow ul k tr = (.ok v, tr2)) : truthy v = true := by
  unfold create_chat_inner at h
  split at h
  next e heq => exact absurd h (by simp)
  next u heq =>
    split at h
    next e heq2 => exact absurd h (by simp)
    next resp heq2 =>
      split at h
      · split at h
        next ht =>
          have hv2 : resp.chat_id = v := by
            have := congrArg Prod.fst h
            simpa using this
          rw [← hv2]; exact ht
        next ht => exact absurd h (by simp)
      next hok => exact absurd h (by simp)

/-- C1 (the code bug): with all four required fields present, ticket
creation via card submission never reaches the discussion-group step:
the call self.config.get_chat_config() raises AttributeError (the method
does not exist on utils.Config), the submit handler's except turns it
into success=False 创建工单失败, and no gateway operation at all happens
-- in particular nothing is persisted, for every oracle behavior
(a fortiori when group creation would fail).  Moreover (second conjunct)
even ignoring that crash, create_chat can never return a falsy group id:
it raises on failure (contradicting its docstring's None), so the
source's success=True-with-warning branch and the chat_id-omitting
save are unreachable. -/
theorem C1_create_ticket_crashes_before_group_step :
    (∀ (o : Oracles) (now : Int) (tr : Tr),
      handle_card_action ⟨cfg0, o, now⟩ submitBody tr =
        (.ok (create_response (.bool false)
          (.str "创建工单失败: \x27Config\x27 object has no attribute \x27get_chat_config\x27")
          PyVal.none PyVal.none now), tr)) ∧
    (∀ (env : Env) (n d : String) (ow ul : PyVal) (tr tr2 : Tr) (v : PyVal),
      create_chat env n d ow ul tr = (.ok v, tr2) → truthy v = true) := by
  constructor
  · intro o now tr
    rfl
  · intro env n d ow ul tr tr2 v h
    unfold create_chat handle_exception at h
    match hr : retryCall 2 1 2 (fun _ => true) (create_chat_inner env n d ow ul) tr with
    | (.error e, tr1) =>
      rw [hr] at h
      by_cases hte : isTicketError e = true <;> simp [hte] at h
    | (.ok v2, tr1) =>
      rw [hr] at h
      simp only [] at h
      obtain ⟨k2, tr3, hf⟩ := retryGo_ok_origin (fun _ => true)
        (create_chat_inner env n d ow ul) 1 2 2 0 tr tr1 v2 hr
      have hv2 : v2 = v ∧ tr1 = tr2 := by
        constructor
        · have := congrArg Prod.fst h; simpa using this
        · have := congrArg Prod.snd h; simpa using this
      rw [hv2.1, hv2.2] at hf
      exact create_chat_inner_ok_truthy env n d ow ul k2 tr3 tr2 v hf

/-- Fixture: oracles whose DynamoDB put fails with a retryable ClientError
on attempt 0 and would succeed on every later attempt. -/
def oraclesPutFlaky : Oracles := { oraclesOk with
  putItem := fun k _ _ => if k = 0 then .error (.clientError "Throttling" "throttled") else .ok () }

/-- Fixture: environment with the flaky DynamoDB put. -/
def envPutFlaky : Env := ⟨cfg0, oraclesPutFlaky, 1700000000⟩

/-- Fixture: oracles whose lark message call fails on attempt 0 and
succeeds on attempt 1. -/
def oraclesMsgFlaky : Oracles := { oraclesOk with
  msgCreate := fun k _ _ _ => if k = 0 then .error (.feishuAPIError "boom") else .ok okMsgResp }

/-- Fixture: environment with the flaky lark message call. -/
def envMsgFlaky : Env := ⟨cfg0, oraclesMsgFlaky, 1700000000⟩

/-- C4 (the code bug): although save_ticket is decorated with
retry(max_attempts=3, exceptions=(ClientError, BotoCoreError)), its body
catches ClientError and re-raises it as AWSServiceError, which the
decorator's exception tuple does not match -- so a store put that fails
on attempt 1 and would succeed on attempt 2 is attempted exactly once
(one putItem in the trace, no sleep) and the failure is surfaced, instead
of the in-budget retry the claim describes.  By contrast (second
conjunct) the notification gateway's send, whose retry tuple is
(Exception,), really is retried: failing on attempt 1 and succeeding on
attempt 2 yields overall success with two attempts and one backoff sleep
in the trace. -/
theorem C4_store_retry_defeated :
    save_ticket envPutFlaky (.str "TICKET-1") (.str "u1") (.str "T") (.str "svc") (.str "low")
        PyVal.none PyVal.none [] =
      (.error (.awsServiceError "保存工单到DynamoDB失败: throttled" "dynamodb"),
       [Effect.putItem 0 "aws-tickets"
         [("ticket_id", .S "TICKET-1"), ("user_id", .S "u1"), ("title", .S "T"),
          ("service", .S "svc"), ("severity", .S "low"), ("status", .S "pending"),
          ("created_at", .N "1700000000"), ("updated_at", .N "1700000000")]]) ∧
    send_message envMsgFlaky (.str "c1") "text" (.dict [("text", .str "hi")]) [] =
      (.ok (.dict [("code", .int 0), ("msg", .str "success"),
        ("data", .dict [("message_id", .str "om_1")])]),
       [Effect.msgCreate 0 (.str "c1") "text" (.dict [("text", .str "hi")]),
        Effect.sleep 1,
        Effect.msgCreate 1 (.str "c1") "text" (.dict [("text", .str "hi")])]) :=
  ⟨rfl, rfl⟩

/-- Helper: a key that lookupStr finds satisfies the dict membership test
Python's `in` performs. -/
theorem lookupStr_any_eq_true (kvs : List (String × PyVal)) (k : String) (v : PyVal)
    (h : lookupStr kvs k = some v) : kvs.any (fun p => p.1 == k) = true := by
  induction kvs with
  | nil => exact absurd h (by simp [lookupStr])
  | cons kv rest ih =>
    match kv with
    | (k2, w) =>
      by_cases hk : k2 = k
      · simp [List.any, hk]
      · unfold lookupStr at h
        rw [if_neg hk] at h
        simp [List.any, ih h, hk]

/-- C8: a POST to the webhook entry point whose (JSON-parsed) body holds
a challenge field is answered by echoing that exact value inside a
challenge structure (create_response(200, dict with the challenge)), with
the effect trace unchanged: no gateway call, no event parsing outcome, no
command handler is involved (the result is the same for every oracle
behavior beyond the body's JSON parse). -/
theorem C8_challenge_echoed (env : Env) (ekvs bkvs : List (String × PyVal))
    (bstr : String) (ch : PyVal) (tr : Tr)
    (hpath : lookupStr ekvs "path" = some (.str "/webhook"))
    (hmeth : lookupStr ekvs "httpMethod" = some (.str "POST"))
    (hbody : lookupStr ekvs "body" = some (.str bstr))
    (hloads : env.o.loads bstr = some (.dict bkvs))
    (hchal : lookupStr bkvs "challenge" = some ch)
    (hfcfg : missing_required env.cfg.get_feishu_config ["app_id", "app_secret"] = [])
    (hacfg : missing_required env.cfg.get_aws_config ["region", "dynamodb_table"] = []) :
    lambda_handler env (.dict ekvs) tr =
      (.ok (create_response (.int 200) (.dict [("challenge", ch)]) PyVal.none PyVal.none env.now),
       tr) := by
  unfold lambda_handler
  simp only [pyGetD, hpath, hmeth, hbody, Option.getD_some]
  simp only [safe_json_loads]
  rw [hloads]
  simp only [Option.getD_some]
  unfold get_ticket_handler_init feishu_service_init aws_service_init validate_required_fields
  rw [hfcfg, hacfg]
  simp only [List.isEmpty_nil, if_true]
  have hpe1 : pyEq (.str "/webhook") (.str "/webhook") = true := by decide
  have hpe2 : pyEq (.str "POST") (.str "POST") = true := by decide
  rw [hpe1, hpe2]
  simp only [Bool.and_self, if_true]
  simp only [pyIn]
  rw [lookupStr_any_eq_true bkvs "challenge" ch hchal]
  simp only [pySub]
  rw [hchal]

/-- Fixture: a loads oracle parsing the challenge body text. -/
def loadsChal : String → Option PyVal := fun s =>
  if s = "CHAL" then some (.dict [("challenge", .str "tok123")]) else Option.none

/-- Fixture: environment for the challenge witness. -/
def envChal : Env := ⟨cfg0, { oraclesOk with loads := loadsChal }, 1700000000⟩

/-- Witness for C8 at a concrete webhook verification request. -/
theorem C8_challenge_echoed_witness :
    lambda_handler envChal
        (.dict [("path", .str "/webhook"), ("httpMethod", .str "POST"), ("body", .str "CHAL")]) [] =
      (.ok (create_response (.int 200) (.dict [("challenge", .str "tok123")])
        PyVal.none PyVal.none 1700000000), []) := by
  exact C8_challenge_echoed envChal _ [("challenge", .str "tok123")] "CHAL" (.str "tok123") []
    rfl rfl rfl rfl rfl rfl rfl

/-- Counterexample for C9: on an event with an empty canonical triple the
handler acknowledges, but not with (success=true, empty message): the
returned envelope's success field is the HTTP status integer 200 (not the
boolean true) and its message field is a non-empty structured object (not
the empty string), because handle_feishu_event calls create_response
positionally with (200, payload-dict). -/
theorem C9_ack_shape_counterexample :
    handle_feishu_event env0 (.dict []) [] =
      (.ok (.dict [("success", .int 200),
        ("message", .dict [("success", .bool true), ("message", .str "事件已接收但无需处理")]),
        ("timestamp", .int 1700000000)]), []) ∧
    PyVal.int 200 ≠ PyVal.bool true ∧
    PyVal.dict [("success", .bool true), ("message", .str "事件已接收但无需处理")] ≠ PyVal.str "" := by
  refine ⟨rfl, fun h => PyVal.noConfusion h, fun h => PyVal.noConfusion h⟩

/-- C9 amended: an event whose canonical (chatId, text, userId) triple
has a falsy component, and a canonical event whose text matches none of
the command prefixes (开工单, 内容, 帮助, 历史), are acknowledged without
invoking any command handler or gateway operation (the effect trace is
returned unchanged) -- but the acknowledgment is create_response(200,
payload): its success field is the integer 200 and its message field is a
small object carrying success=true (plus an explanatory note in the
empty-triple case), not the empty string. -/
theorem C9_amended_silent_ack :
    (∀ (env : Env) (body : PyVal) (tr : Tr) (c t u : PyVal),
      parse_feishu_event env body = (c, t, u) →
      (truthy c && truthy t && truthy u) = false →
      handle_feishu_event env body tr =
        (.ok (create_response (.int 200)
          (.dict [("success", .bool true), ("message", .str "事件已接收但无需处理")])
          PyVal.none PyVal.none env.now), tr)) ∧
    (∀ (env : Env) (body : PyVal) (tr : Tr) (c u : PyVal) (s : String),
      parse_feishu_event env body = (c, .str s, u) →
      truthy c = true → s ≠ "" → truthy u = true →
      strStartsWith s "开工单" = false → strStartsWith s "内容" = false →
      pyStrip s ≠ "帮助" → pyStrip s ≠ "历史" →
      handle_feishu_event env body tr =
        (.ok (create_response (.int 200) (.dict [("success", .bool true)])
          PyVal.none PyVal.none env.now), tr)) := by
  constructor
  · intro env body tr c t u hp h
    unfold handle_feishu_event handle_feishu_event_try
    rw [hp]
    have hcond : (!truthy c || !truthy t || !truthy u) = true := by
      cases h1 : truthy c <;> cases h2 : truthy t <;> cases h3 : truthy u <;> simp_all
    simp only [hcond, if_true, handle_exception]
  · intro env body tr c u s hp hc hs hu h1 h2 h3 h4
    unfold handle_feishu_event handle_feishu_event_try
    rw [hp]
    have hts : truthy (.str s) = true := by
      have : s.isEmpty = false := by
        cases he : s.isEmpty
        · rfl
        · exact absurd ((String.isEmpty_iff s).mp he) hs
      simp [truthy, this]
    have hcond : (!truthy c || !truthy (.str s) || !truthy u) = false := by
      rw [hc, hts, hu]; rfl
    simp only [hcond, Bool.false_eq_true, if_false]
    unfold handle_feishu_event_dispatch
    simp only [h1, h2, if_neg h3, if_neg h4, Bool.false_eq_true, if_false, handle_exception]

/-- Fixture: loads oracle for a 1.0-format message event with text
hello. -/
def loadsMsg : String → Option PyVal := fun s =>
  if s = "TXT" then some (.dict [("text", .str "hello")]) else Option.none

/-- Fixture: environment for the no-match witness. -/
def envMsg : Env := ⟨cfg0, { oraclesOk with loads := loadsMsg }, 1700000000⟩

/-- Fixture: a 1.0-format message event whose text (hello) matches no
command prefix. -/
def body10 : PyVal := .dict [("type", .str "message"),
  ("message", .dict [("chat_id", .str "c1"), ("content", .str "TXT")]),
  ("sender_id", .dict [("user_id", .str "u1")])]

/-- Witness for C9's amended statement at a concrete no-match event. -/
theorem C9_amended_silent_ack_witness :
    handle_feishu_event envMsg body10 [] =
      (.ok (create_response (.int 200) (.dict [("success", .bool true)])
        PyVal.none PyVal.none 1700000000), []) := by
  exact C9_amended_silent_ack.2 envMsg body10 [] (.str "c1") (.str "u1") "hello"
    rfl rfl (by decide) rfl rfl rfl (by decide) (by decide)

/-- Helper: every normal return of the submit try-block is a
create_response envelope with boolean success and string message.  (In
execution only the missing-field rejection can return normally: the
remaining normal paths sit behind the get_chat_config AttributeError.) -/
theorem handle_submit_ticket_body_ok_envelope (env : Env) (a av : PyVal) (tr tr2 : Tr)
    (r : PyVal) (h : handle_submit_ticket_body env a av tr = (.ok r, tr2)) :
    is_envelope r = true := by
  unfold handle_submit_ticket_body at h
  split at h
  · exact absurd h (by simp)
  · split at h
    · exact absurd h (by simp)
    · split at h
      · exact absurd h (by simp)
      · split at h
        · injection h with h1 h2
          injection h1 with h3
          rw [← h3]
          exact is_envelope_create_response _ _ _ _ _
        · split at h
          next heq => exact absurd h (by simp)
          next cc heq => exact absurd heq (by simp [Config.get_chat_config])

/-- Helper: handle_submit_ticket always returns normally, with an
envelope. -/
theorem handle_submit_ticket_ok_envelope (env : Env) (a av : PyVal) (tr tr2 : Tr) (r : PyVal)
    (h : handle_submit_ticket env a av tr = (.ok r, tr2)) : is_envelope r = true := by
  unfold handle_submit_ticket at h
  split at h
  next e tr1 heq =>
    injection h with h1 h2
    injection h1 with h3
    rw [← h3]
    exact is_envelope_create_response _ _ _ _ _
  next ok hne =>
    match hb : handle_submit_ticket_body env a av tr with
    | (.error e, tr1) => exact ((hne e tr1 (by rw [← hb])).elim)
    | (.ok r0, tr1) =>
      rw [hb] at h
      have h2 : ((Except.ok r0 : Except PyErr PyVal), tr1) = (Except.ok r, tr2) := h
      injection h2 with h3 h4
      injection h3 with h5
      rw [h4, h5] at hb
      exact handle_submit_ticket_body_ok_envelope env a av tr tr2 r hb

/-- Helper: every normal return of the card-action try-block is an
envelope. -/
theorem handle_card_action_try_ok_envelope (env : Env) (body : PyVal) (tr tr2 : Tr)
    (r : PyVal) (h : handle_card_action_try env body tr = (.ok r, tr2)) :
    is_envelope r = true := by
  unfold handle_card_action_try at h
  split at h
  · exact absurd h (by simp)
  · split at h
    · exact absurd h (by simp)
    · split at h
      · exact absurd h (by simp)
      · split at h
        · exact handle_submit_ticket_ok_envelope env body _ tr tr2 r h
        · injection h with h1 h2
          injection h1 with h3
          rw [← h3]
          exact is_envelope_create_response _ _ _ _ _

/-- Counterexample for C3: a command handler called with an empty chat id
does not return the Response envelope at all -- it raises ValidationError
(re-raised by the handle_exception decorator) to its caller. -/
theorem C3_command_handler_raises_counterexample :
    handle_create_ticket_command env0 (.str "") "EC2实例无法启动" [] =
      (.error (.validationError "创建工单参数不完整: chat_id"), []) := rfl

/-- C3 amended: the card-action handler returns the Response envelope
(boolean success, string message, integer timestamp) and never lets an
exception propagate, for every input and oracle behavior; the webhook
event handler also never lets an exception propagate (failures become its
200/500 acknowledgments); but the command handlers do not satisfy the
claim: invoked with an empty required argument they raise ValidationError
to their caller, because handle_exception re-raises TicketErrors instead
of building a response. -/
theorem C3_amended_envelope_discipline :
    (∀ (env : Env) (body : PyVal) (tr : Tr),
      ∃ r tr2, handle_card_action env body tr = (.ok r, tr2) ∧ is_envelope r = true) ∧
    (∀ (env : Env) (body : PyVal) (tr : Tr),
      ∃ r tr2, handle_feishu_event env body tr = (.ok r, tr2)) ∧
    (∀ (env : Env) (tr : Tr),
      handle_create_ticket_command env (.str "") "T" tr =
        (.error (.validationError "创建工单参数不完整: chat_id"), tr)) := by
  refine ⟨?_, ?_, ?_⟩
  · intro env body tr
    unfold handle_card_action
    match hb : handle_card_action_try env body tr with
    | (.error e, tr1) =>
      exact ⟨_, tr1, rfl, is_envelope_create_response _ _ _ _ _⟩
    | (.ok r, tr1) =>
      exact ⟨r, tr1, rfl, handle_card_action_try_ok_envelope env body tr tr1 r hb⟩
  · intro env body tr
    unfold handle_feishu_event
    match hb : handle_feishu_event_try env body tr with
    | (.error e, tr1) => exact ⟨_, tr1, rfl⟩
    | (.ok r, tr1) => exact ⟨r, tr1, rfl⟩
  · intro env tr
    rfl

/-- Witness for C3's amended statement: the card-action handler returns a
well-formed envelope on a malformed body (an int), and the event handler
returns normally on it too. -/
theorem C3_amended_envelope_witness :
    (∃ r tr2, handle_card_action env0 (.int 7) [] = (.ok r, tr2) ∧ is_envelope r = true) ∧
    (∃ r tr2, handle_feishu_event env0 (.int 7) [] = (.ok r, tr2)) := by
  exact ⟨C3_amended_envelope_discipline.1 env0 (.int 7) [],
         C3_amended_envelope_discipline.2.1 env0 (.int 7) []⟩

/-- Helper: the sort is a permutation of its input. -/
theorem sortDescBy_perm {α : Type} (key : α → Int) (l : List α) :
    (sortDescBy key l).Perm l :=
  List.perm_insertionSort _ l

/-- Helper: the sort's keys are weakly descending. -/
theorem sortDescBy_sorted {α : Type} (key : α → Int) (l : List α) :
    (sortDescBy key l).Sorted (fun a b => key b ≤ key a) := by
  have htotal : IsTotal α (fun a b => key b ≤ key a) := ⟨fun a b => le_total (key b) (key a)⟩
  have htrans : IsTrans α (fun a b => key b ≤ key a) :=
    ⟨fun _ _ _ h1 h2 => le_trans h2 h1⟩
  exact List.sorted_insertionSort _ l

/-- Helper: with pairwise-distinct keys the sort is strictly
descending. -/
theorem sortDescBy_strict {α : Type} (key : α → Int) (l : List α)
    (h : l.Pairwise (fun a b => key a ≠ key b)) :
    (sortDescBy key l).Pairwise (fun a b => key b < key a) := by
  have hd : (sortDescBy key l).Pairwise (fun a b => key a ≠ key b) :=
    ((sortDescBy_perm key l).pairwise_iff (fun {a b} hab => Ne.symm hab)).mpr h
  have hs := sortDescBy_sorted key l
  exact (List.pairwise_and_iff.mpr ⟨hs, hd⟩).imp
    (fun hab => lt_of_le_of_ne hab.1 (Ne.symm hab.2))

/-- Concatenation of the rendered texts of a list, in list order. -/
def concatMapStr {β : Type} (g : β → String) : List β → String
  | [] => ""
  | x :: xs => g x ++ concatMapStr g xs

/-- Helper: the message-building fold is the header followed by the
blocks in list order. -/
theorem foldl_append_concatMap {β : Type} (g : β → String) :
    ∀ (l : List β) (init : String),
      l.foldl (fun acc t => acc ++ g t) init = init ++ concatMapStr g l := by
  intro l
  induction l with
  | nil => intro init; simp [concatMapStr]
  | cons x xs ih =>
    intro init
    show xs.foldl (fun acc t => acc ++ g t) (init ++ g x) = _
    rw [ih (init ++ g x), concatMapStr, String.append_assoc]

/-- Helper: build_history_message renders the header and then one block
per ticket, in exactly the order of the list it receives. -/
theorem build_history_message_eq (strftime : String → PyVal → String)
    (tickets : List (List (String × PyVal))) :
    build_history_message strftime tickets =
      "📋 **历史工单记录:**\n\n" ++ concatMapStr (render_history_block strftime) tickets :=
  foldl_append_concatMap _ tickets _

/-- Helper: when the first attempt of a retried call succeeds, the retry
wrapper returns exactly that attempt's outcome. -/
theorem retryGo_first_ok {α : Type} (retryable : PyErr → Bool) (f : Nat → Tr → PRes α)
    (cd b : Rat) (k r : Nat) (tr tr2 : Tr) (v : α) (hf : f k tr = (.ok v, tr2)) :
    retryGo retryable f cd b k (r + 1) tr = (.ok v, tr2) := by
  unfold retryGo
  rw [hf]

/-- C5: for a user whose stored tickets have pairwise distinct integer
creation timestamps, the history command sends one text message whose
body renders the tickets sorted strictly descending by created_at --
whatever order the store's scan returned them in -- and reports success;
the trace records exactly the scan and that one outgoing message, whose
text is the header followed by the rendered blocks in sorted order. -/
theorem C5_history_descending (env : Env) (chat_id user_id : PyVal)
    (items : List (List (String × AttrVal))) (tr : Tr)
    (hcn : (pyBeq chat_id PyVal.none || pyEq chat_id (.str "")) = false)
    (hun : (pyBeq user_id PyVal.none || pyEq user_id (.str "")) = false)
    (hscan : env.o.scan 0 user_id env.cfg.max_history_records = .ok items)
    (hmsg : ∀ (k : Nat) (rid : PyVal) (mt : String) (c : PyVal),
      ∃ resp, env.o.msgCreate k rid mt c = .ok resp ∧ resp.ok = true)
    (hne : items ≠ [])
    (hkeys : (items.map convert_from_dynamodb_item).Pairwise
      (fun a b => createdAtKey a ≠ createdAtKey b)) :
    handle_history_command env chat_id user_id tr =
      (.ok (create_response (.bool true)
        (.str ("已发送 " ++
          intStr (Int.ofNat (sortDescBy createdAtKey (items.map convert_from_dynamodb_item)).length) ++
          " 条历史工单记录"))
        PyVal.none PyVal.none env.now),
       tr ++ [Effect.scanCall 0 user_id env.cfg.max_history_records,
              Effect.msgCreate 0 chat_id "text"
                (.dict [("text", .str (build_history_message env.o.strftime
                  (sortDescBy createdAtKey (items.map convert_from_dynamodb_item))))])]) ∧
    (sortDescBy createdAtKey (items.map convert_from_dynamodb_item)).Perm
      (items.map convert_from_dynamodb_item) ∧
    (sortDescBy createdAtKey (items.map convert_from_dynamodb_item)).Pairwise
      (fun a b => createdAtKey b < createdAtKey a) ∧
    build_history_message env.o.strftime
        (sortDescBy createdAtKey (items.map convert_from_dynamodb_item)) =
      "📋 **历史工单记录:**\n\n" ++
        concatMapStr (render_history_block env.o.strftime)
          (sortDescBy createdAtKey (items.map convert_from_dynamodb_item)) := by
  refine ⟨?_, sortDescBy_perm _ _, sortDescBy_strict _ _ hkeys, build_history_message_eq _ _⟩
  have hval : validate_required_fields [("chat_id", chat_id), ("user_id", user_id)]
      ["chat_id", "user_id"] "查询历史工单参数不完整" = .ok () := by
    unfold validate_required_fields missing_required
    simp [lookupStr, hcn, hun]
  have hval2 : validate_required_fields [("user_id", user_id)] ["user_id"]
      "查询用户工单参数不完整" = .ok () := by
    unfold validate_required_fields missing_required
    simp [lookupStr, hun]
  have hinner : get_user_tickets_inner env user_id PyVal.none 0 tr =
      (.ok (sortDescBy createdAtKey (items.map convert_from_dynamodb_item)),
       tr ++ [Effect.scanCall 0 user_id env.cfg.max_history_records]) := by
    unfold get_user_tickets_inner
    rw [hval2]
    simp only [truthy, Bool.false_eq_true, if_false]
    rw [hscan]
  have hgut : get_user_tickets env user_id PyVal.none tr =
      (.ok (sortDescBy createdAtKey (items.map convert_from_dynamodb_item)),
       tr ++ [Effect.scanCall 0 user_id env.cfg.max_history_records]) := by
    unfold get_user_tickets
    have h1 : retryCall 3 1 2 isAwsRetryable (get_user_tickets_inner env user_id PyVal.none) tr =
        (.ok (sortDescBy createdAtKey (items.map convert_from_dynamodb_item)),
         tr ++ [Effect.scanCall 0 user_id env.cfg.max_history_records]) :=
      retryGo_first_ok isAwsRetryable _ 1 2 0 2 tr _ _ hinner
    rw [h1]
    rfl
  have hsne : (sortDescBy createdAtKey (items.map convert_from_dynamodb_item)).isEmpty = false := by
    have hlen := (sortDescBy_perm createdAtKey (items.map convert_from_dynamodb_item)).length_eq
    cases hs : sortDescBy createdAtKey (items.map convert_from_dynamodb_item) with
    | nil =>
      rw [hs] at hlen
      have : items.map convert_from_dynamodb_item = [] := List.length_eq_zero.mp hlen.symm
      exact absurd (List.map_eq_nil_iff.mp this) hne
    | cons x xs => rfl
  obtain ⟨resp, hresp, hrok⟩ := hmsg 0 chat_id "text"
    (.dict [("text", .str (build_history_message env.o.strftime
      (sortDescBy createdAtKey (items.map convert_from_dynamodb_item))))])
  have hsendinner : send_message_inner env chat_id "text"
      (.dict [("text", .str (build_history_message env.o.strftime
        (sortDescBy createdAtKey (items.map convert_from_dynamodb_item))))]) 0
      (tr ++ [Effect.scanCall 0 user_id env.cfg.max_history_records]) =
      (.ok (.dict [("code", .int 0), ("msg", .str "success"),
        ("data", .dict [("message_id", .str resp.message_id)])]),
       tr ++ [Effect.scanCall 0 user_id env.cfg.max_history_records,
              Effect.msgCreate 0 chat_id "text"
                (.dict [("text", .str (build_history_message env.o.strftime
                  (sortDescBy createdAtKey (items.map convert_from_dynamodb_item))))])]) := by
    unfold send_message_inner
    have hvs : validate_required_fields
        [("chat_id", chat_id), ("msg_type", .str "text"),
         ("content", .dict [("text", .str (build_history_message env.o.strftime
           (sortDescBy createdAtKey (items.map convert_from_dynamodb_item))))])]
        ["chat_id", "msg_type", "content"] "发送消息参数不完整" = .ok () := by
      unfold validate_required_fields missing_required
      have hmt : (pyBeq (PyVal.str "text") PyVal.none ||
          pyEq (PyVal.str "text") (PyVal.str "")) = false := rfl
      have hct : (pyBeq (PyVal.dict [("text", PyVal.str (build_history_message env.o.strftime
            (sortDescBy createdAtKey (items.map convert_from_dynamodb_item))))]) PyVal.none ||
          pyEq (PyVal.dict [("text", PyVal.str (build_history_message env.o.strftime
            (sortDescBy createdAtKey (items.map convert_from_dynamodb_item))))])
            (PyVal.str "")) = false := rfl
      simp [lookupStr, hcn, hmt, hct]
    rw [hvs]
    rw [hresp]
    split
    next heq => exact absurd heq (by simp)
    next u2 heq =>
      split
      next e2 heq2 => exact absurd heq2 (by simp)
      next resp2 heq2 =>
        injection heq2 with hq
        rw [← hq, hrok]
        simp [List.append_assoc]
  have hsend : send_message env chat_id "text"
      (.dict [("text", .str (build_history_message env.o.strftime
        (sortDescBy createdAtKey (items.map convert_from_dynamodb_item))))])
      (tr ++ [Effect.scanCall 0 user_id env.cfg.max_history_records]) =
      (.ok (.dict [("code", .int 0), ("msg", .str "success"),
        ("data", .dict [("message_id", .str resp.message_id)])]),
       tr ++ [Effect.scanCall 0 user_id env.cfg.max_history_records,
              Effect.msgCreate 0 chat_id "text"
                (.dict [("text", .str (build_history_message env.o.strftime
                  (sortDescBy createdAtKey (items.map convert_from_dynamodb_item))))])]) := by
    unfold send_message
    have h2 : retryCall 2 1 2 (fun _ => true)
        (send_message_inner env chat_id "text"
          (.dict [("text", .str (build_history_message env.o.strftime
            (sortDescBy createdAtKey (items.map convert_from_dynamodb_item))))]))
        (tr ++ [Effect.scanCall 0 user_id env.cfg.max_history_records]) =
        (.ok (.dict [("code", .int 0), ("msg", .str "success"),
          ("data", .dict [("message_id", .str resp.message_id)])]),
         tr ++ [Effect.scanCall 0 user_id env.cfg.max_history_records,
                Effect.msgCreate 0 chat_id "text"
                  (.dict [("text", .str (build_history_message env.o.strftime
                    (sortDescBy createdAtKey (items.map convert_from_dynamodb_item))))])]) :=
      retryGo_first_ok (fun _ => true)
        (send_message_inner env chat_id "text"
          (.dict [("text", .str (build_history_message env.o.strftime
            (sortDescBy createdAtKey (items.map convert_from_dynamodb_item))))]))
        1 2 0 1 _ _ _ hsendinner
    rw [h2]
    rfl
  unfold handle_history_command
  rw [hval, hgut]
  split
  next heq => exact absurd heq (by simp)
  next u heq =>
    split
    next e tr1x heq2 => exact absurd heq2 (by simp)
    next tickets tr1x heq2 =>
      injection heq2 with hq1 hq2
      injection hq1 with hq3
      rw [← hq3, ← hq2, hsne]
      simp only [Bool.false_eq_true, if_false]
      rw [hsend]
      rfl

/-- Fixture: two stored items for one user, scan-returned in ascending
timestamp order (5 then 9). -/
def itemsHist : List (List (String × AttrVal)) :=
  [[("ticket_id", .S "TICKET-5"), ("created_at", .N "5")],
   [("ticket_id", .S "TICKET-9"), ("created_at", .N "9")]]

/-- Fixture: oracles whose scan returns the two items above. -/
def oraclesHist : Oracles := { oraclesOk with scan := fun _ _ _ => .ok itemsHist }

/-- Fixture: environment for the history witness. -/
def envHist : Env := ⟨cfg0, oraclesHist, 1700000000⟩

/-- Witness for C5: with the store returning ascending timestamps the
handler sends the two tickets in strictly descending order. -/
theorem C5_history_descending_witness :
    handle_history_command envHist (.str "c1") (.str "u1") [] =
      (.ok (create_response (.bool true) (.str "已发送 2 条历史工单记录")
        PyVal.none PyVal.none 1700000000),
       [Effect.scanCall 0 (.str "u1") 10,
        Effect.msgCreate 0 (.str "c1") "text"
          (.dict [("text", .str (build_history_message envHist.o.strftime
            (sortDescBy createdAtKey (itemsHist.map convert_from_dynamodb_item))))])]) ∧
    (sortDescBy createdAtKey (itemsHist.map convert_from_dynamodb_item)).Pairwise
      (fun a b => createdAtKey b < createdAtKey a) := by
  have h := C5_history_descending envHist (.str "c1") (.str "u1") itemsHist [] rfl rfl rfl
    (fun _ _ _ _ => ⟨okMsgResp, rfl, rfl⟩) (by simp [itemsHist]) (by decide)
  exact ⟨h.1, h.2.2.1⟩
